import Mathlib

/-!
Shallow embedding of the adaptive thermostat controller
(`lib/adaptive-controller.js`) and of the actuator activation latch of the
Node-RED node (`nodes/smart-thermostat.js`).

Temperatures, gains and durations in seconds are modelled as rationals
(the JavaScript source performs only field arithmetic on them, apart from
one square root that is eliminated below by an exact squaring argument);
timestamps in milliseconds are integers; JavaScript `null`/absent values
are `Option`.  Mode strings are kept as strings, as the source compares
them literally.
-/

namespace Thermostat

/-- JavaScript `Math.round`: round half toward positive infinity. -/
def jsRound (x : ℚ) : ℤ := ⌊x + 1/2⌋

/-- JavaScript `Math.sign` restricted to the rationals. -/
def jsSign (x : ℚ) : ℚ := if 0 < x then 1 else if x < 0 then -1 else 0

/-- The controller's `clamp(value, min, max)` helper:
`Math.min(Math.max(value, min), max)`. -/
def clampQ (value lo hi : ℚ) : ℚ := min (max value lo) hi

/-- One schedule slot `{time: "HH:MM", temp}`; the time string is kept
pre-split into hour and minute components. -/
structure Slot where
  timeH : ℕ
  timeM : ℕ
  temp : ℚ
deriving DecidableEq

/-- Minutes after midnight of a slot's time, as computed by
`slotHours * 60 + slotMins` in `getScheduledTemp`. -/
def Slot.minutes (sl : Slot) : ℕ := sl.timeH * 60 + sl.timeM

/-- A weekly schedule: one (possibly empty) ordered slot list per weekday.
An absent day in the source object is the empty list (the source treats
`undefined`, non-arrays and empty arrays identically). -/
structure Schedule where
  sunday : List Slot
  monday : List Slot
  tuesday : List Slot
  wednesday : List Slot
  thursday : List Slot
  friday : List Slot
  saturday : List Slot
deriving DecidableEq

/-- Day list lookup by the JavaScript `getDay()` index (`dayNames[i]`). -/
def Schedule.day (sch : Schedule) : ℕ → List Slot
  | 0 => sch.sunday
  | 1 => sch.monday
  | 2 => sch.tuesday
  | 3 => sch.wednesday
  | 4 => sch.thursday
  | 5 => sch.friday
  | 6 => sch.saturday
  | _ => []

/-- Result of `getTimeInTimezone`: weekday index, hour and minute in the
configured zone.  The time provider itself is an external collaborator, so
its result is an input here. -/
structure TimeInfo where
  dayIndex : ℕ
  hours : ℕ
  minutes : ℕ
deriving DecidableEq

/-- The fields of an `AdaptiveController` instance that the control
algorithms read or write (the unused `outputHistory` is omitted). -/
structure Ctrl where
  minTemp : ℚ
  maxTemp : ℚ
  targetTemp : ℚ
  baseTargetTemp : ℚ
  hysteresis : ℚ
  sampleInterval : ℚ
  learningEnabled : Bool
  maxOutputChange : ℚ
  precision : ℚ
  mode : String
  operatingMode : String
  schedule : Option Schedule
  boostActive : Bool
  boostTemp : Option ℚ
  boostEndTime : Option ℤ
  awayMode : Bool
  awayTemp : ℚ
  Kp : ℚ
  Ki : ℚ
  Kd : ℚ
  integral : ℚ
  lastError : ℚ
  lastTemp : Option ℚ
  lastOutput : Option ℚ
  lastUpdateTime : Option ℤ
  learningPhase : Bool
  temperatureHistory : List (ℚ × ℤ)
  learningStartTime : Option ℤ
  learningComplete : Bool
  samplesNeeded : ℕ
  performanceHistory : List ℚ
  adaptationInterval : ℕ
  trendWindow : List ℚ
  trendWindowSize : ℕ
  parametersChanged : Bool
deriving DecidableEq

/-- Controller state produced by `new AdaptiveController({})`, i.e. the
constructor with every config field at its default. -/
def ctorDefaults : Ctrl where
  minTemp := 15
  maxTemp := 25
  targetTemp := 21
  baseTargetTemp := 21
  hysteresis := 1/5
  sampleInterval := 60000
  learningEnabled := true
  maxOutputChange := 1/2
  precision := 1/2
  mode := "heat"
  operatingMode := "manual"
  schedule := none
  boostActive := false
  boostTemp := none
  boostEndTime := none
  awayMode := false
  awayTemp := 16
  Kp := 1
  Ki := 1/50
  Kd := 1/2
  integral := 0
  lastError := 0
  lastTemp := none
  lastOutput := none
  lastUpdateTime := none
  learningPhase := true
  temperatureHistory := []
  learningStartTime := none
  learningComplete := false
  samplesNeeded := 30
  performanceHistory := []
  adaptationInterval := 100
  trendWindow := []
  trendWindowSize := 5
  parametersChanged := false

/-- `roundToPrecision(value)`:
`Math.round(value / this.precision) * this.precision`. -/
def roundToPrecision (s : Ctrl) (value : ℚ) : ℚ :=
  (jsRound (value / s.precision) : ℚ) * s.precision

/-- `checkBoostExpiry()`: clear the boost fields when boost is active, an
expiry is set and the current instant is strictly past it. -/
def checkBoostExpiry (now : ℤ) (s : Ctrl) : Ctrl :=
  match s.boostEndTime with
  | some e =>
    if s.boostActive ∧ now > e then
      { s with boostActive := false, boostTemp := none, boostEndTime := none }
    else s
  | none => s

/-- `getScheduledTemp()` with the time-provider result passed in.  Scans
today's slots for the last one at or before the current time; when today
has no slots, or none has fired yet, falls back to the previous day's last
slot, and finally to the base target. -/
def getScheduledTemp (t : TimeInfo) (s : Ctrl) : ℚ :=
  match s.schedule with
  | none => s.baseTargetTemp
  | some sch =>
    let daySchedule := sch.day t.dayIndex
    if daySchedule.isEmpty then
      match (sch.day ((t.dayIndex + 6) % 7)).getLast? with
      | some sl => sl.temp
      | none => s.baseTargetTemp
    else
      let currentTime := t.hours * 60 + t.minutes
      let scanned := daySchedule.foldl
        (fun acc sl => if sl.minutes ≤ currentTime then some sl else acc) none
      let activeSlot := match scanned with
        | some sl => some sl
        | none => (sch.day ((t.dayIndex + 6) % 7)).getLast?
      match activeSlot with
      | some sl => sl.temp
      | none => s.baseTargetTemp

/-- `calculateEffectiveTarget()`: base target, overridden by the schedule
when one exists, capped by the away temperature in away mode, overridden
by an active boost, and finally clamped to the configured bounds. -/
def calculateEffectiveTarget (t : TimeInfo) (s : Ctrl) : Ctrl :=
  let e1 := if s.schedule.isSome then getScheduledTemp t s else s.baseTargetTemp
  let e2 := if s.awayMode then min e1 s.awayTemp else e1
  let e3 := match s.boostTemp with
    | some b => if s.boostActive then b else e2
    | none => e2
  { s with targetTemp := clampQ e3 s.minTemp s.maxTemp }

/-- The one-element eviction (`shift()`) applied by the source when a
bounded buffer grows past its cap. -/
def boundedPush (w : List ℚ) (cap : ℕ) : List ℚ :=
  if cap < w.length then w.tail else w

/-- `recordTemperature(temp, timestamp)`: append to the history, drop
entries older than one hour, and push the sample into the bounded trend
window. -/
def recordTemperature (s : Ctrl) (temp : ℚ) (ts : ℤ) : Ctrl :=
  { s with
    temperatureHistory := (s.temperatureHistory ++ [(temp, ts)]).filter
      (fun p => decide (ts - 3600000 < p.2))
    trendWindow := boundedPush (s.trendWindow ++ [temp]) s.trendWindowSize }

/-- `detectTrend()` on a trend window. -/
def detectTrend (w : List ℚ) : String :=
  if w.length < 3 then "unknown"
  else if w.getLastD 0 - w.headD 0 > 1/10 then "heating"
  else if w.getLastD 0 - w.headD 0 < -(1/10) then "cooling"
  else "stable"

/-- PID term breakdown returned by `calculatePID`. -/
structure PidTerms where
  P : ℚ
  I : ℚ
  D : ℚ
  adjustment : ℚ
deriving DecidableEq

/-- `calculatePID(error, dt, activeMode)`: proportional on `|error|`,
signed integral (sign flipped in cool mode) clamped to
`[0, (maxTemp - minTemp) / (2*Ki || 1)]`, derivative on the change of
`|error|`. -/
def calculatePID (s : Ctrl) (error dt : ℚ) (activeMode : String) : Ctrl × PidTerms :=
  let absError := |error|
  let P := s.Kp * absError
  let integ := if activeMode = "heat" then s.integral + error * dt
               else s.integral + (-error) * dt
  let denom := if 2 * s.Ki = 0 then 1 else 2 * s.Ki
  let integralLimit := (s.maxTemp - s.minTemp) / denom
  let integ2 := clampQ integ 0 integralLimit
  let I := s.Ki * integ2
  let errorChange := |error| - |s.lastError|
  let derivative := if 0 < dt then errorChange / dt else 0
  let D := s.Kd * derivative
  ({ s with integral := integ2 }, ⟨P, I, D, P + I + D⟩)

/-- Thermal plant estimate returned by `estimateThermalCharacteristics`. -/
structure ThermalChar where
  timeConstant : ℚ
  deadTime : ℚ
deriving DecidableEq

/-- The max-deviation scan of `estimateThermalCharacteristics`: largest
`|temps[i] - temps[0]|` together with the first index attaining it. -/
def maxDeviation (t0 : ℚ) (temps : List ℚ) : ℚ × ℕ :=
  temps.enum.foldl
    (fun acc p => if |p.2 - t0| > acc.1 then (|p.2 - t0|, p.1) else acc) (0, 0)

/-- The response-point search loops of `estimateThermalCharacteristics`:
first index below `endIdx` whose sample crosses `target` in the direction
of the deviation, with a default when none does. -/
def firstReach (temps : List ℚ) (t0 tEnd target : ℚ) (endIdx dflt : ℕ) : ℕ :=
  match (List.range endIdx).find? (fun i =>
      (decide (t0 < tEnd) && decide (target ≤ temps.getD i 0)) ||
      (decide (tEnd < t0) && decide (temps.getD i 0 ≤ target))) with
  | some i => i
  | none => dflt

/-- `estimateThermalCharacteristics()`: needs 10 samples and at least 0.5
degrees of excitation; reads the 63.2% point as the time constant and the
10% point as the dead time, both in seconds. -/
def estimateThermalCharacteristics (s : Ctrl) : ThermalChar :=
  if s.temperatureHistory.length < 10 then ⟨0, 0⟩
  else
    let temps := s.temperatureHistory.map Prod.fst
    let times := s.temperatureHistory.map Prod.snd
    let t0 := temps.getD 0 0
    let md := maxDeviation t0 temps
    if md.1 < 1/2 then ⟨0, 0⟩
    else
      let tEnd := temps.getD md.2 0
      let target63 := t0 + (632/1000) * (tEnd - t0)
      let tcIdx := firstReach temps t0 tEnd target63 md.2 md.2
      let timeConstant := ((times.getD tcIdx 0 - times.getD 0 0 : ℤ) : ℚ) / 1000
      let target10 := t0 + (1/10) * (tEnd - t0)
      let dtIdx := firstReach temps t0 tEnd target10 md.2 0
      let deadTime := ((times.getD dtIdx 0 - times.getD 0 0 : ℤ) : ℚ) / 1000
      ⟨timeConstant, deadTime⟩

/-- The Cohen-Coon style Kp formula, per regime of the
`deadTime/timeConstant` ratio. -/
def cohenCoonKp (ratio : ℚ) : ℚ :=
  if ratio < 1/10 then (135/100) / ratio
  else if ratio < 1/2 then ((135/100) + (25/100) * ratio) / ratio
  else (9/10) / ratio

/-- The Cohen-Coon style Ki formula. -/
def cohenCoonKi (ratio deadTime : ℚ) : ℚ :=
  if ratio < 1/10 then cohenCoonKp ratio / ((25/10) * deadTime)
  else if ratio < 1/2 then cohenCoonKp ratio / (((25/10) - 2 * ratio) * deadTime)
  else cohenCoonKp ratio / ((33/10) * deadTime)

/-- The Cohen-Coon style Kd formula. -/
def cohenCoonKd (ratio deadTime : ℚ) : ℚ :=
  if ratio < 1/10 then cohenCoonKp ratio * (37/100) * deadTime
  else if ratio < 1/2 then cohenCoonKp ratio * ((37/100) - (3/10) * ratio) * deadTime
  else cohenCoonKp ratio * (2/10) * deadTime

/-- `adaptPIDParameters(characteristics)`: Cohen-Coon style gain formulas
in three regimes of `deadTime/timeConstant`, clamped to fixed ranges, with
the persistence flag raised unconditionally at the end. -/
def adaptPIDParameters (s : Ctrl) (c : ThermalChar) : Ctrl :=
  if c.timeConstant ≤ 0 ∨ c.deadTime ≤ 0 then s
  else
    { s with
      Kp := clampQ (cohenCoonKp (c.deadTime / c.timeConstant)) (1/10) 5
      Ki := clampQ (cohenCoonKi (c.deadTime / c.timeConstant) c.deadTime) (1/1000) (1/2)
      Kd := clampQ (cohenCoonKd (c.deadTime / c.timeConstant) c.deadTime) 0 2
      parametersChanged := true }

/-- The `learningStartTime` initialisation at the top of `learn`. -/
def learnStart (s : Ctrl) (now : ℤ) : Ctrl :=
  if s.learningStartTime.isNone then { s with learningStartTime := some now } else s

/-- The learning-to-tuned transition (`learningComplete = true`,
`learningPhase = false`). -/
def completeLearning (s : Ctrl) : Ctrl :=
  { s with learningComplete := true, learningPhase := false }

/-- The estimation step of `learn`: tune and transition when the
estimated time constant and dead time are both strictly positive. -/
def learnEstimate (s1 : Ctrl) : Ctrl :=
  if 0 < (estimateThermalCharacteristics s1).timeConstant ∧
      0 < (estimateThermalCharacteristics s1).deadTime then
    completeLearning (adaptPIDParameters s1 (estimateThermalCharacteristics s1))
  else s1

/-- `learn(currentTemp, error, dt)` (whose arguments the body never
uses): record the start instant, bail out under 30 samples, tune and
complete on a successful estimate, and force completion after one hour. -/
def learn (s : Ctrl) (now : ℤ) : Ctrl :=
  if (learnStart s now).temperatureHistory.length < (learnStart s now).samplesNeeded then
    learnStart s now
  else if 3600000 < now - (learnStart s now).learningStartTime.getD now then
    completeLearning (learnEstimate (learnStart s now))
  else learnEstimate (learnStart s now)

/-- `continuousAdaptation()` (and its pieces, below): over the last
`adaptationInterval` absolute errors, soften the gains under oscillation
or stiffen Kp under sluggish response.  The source branches on
`stdDev > avgError * 0.5`; since the standard deviation is the square
root of an exact rational here, that comparison is encoded equivalently
as `avgError/2 < 0 or (avgError/2)^2 < variance`. -/
def recentMean (recent : List ℚ) : ℚ := recent.foldl (· + ·) 0 / (recent.length : ℚ)

/-- Mean of squared deviations of the recent absolute errors. -/
def recentVariance (recent : List ℚ) : ℚ :=
  (recent.foldl (fun sum e => sum + (e - recentMean recent) ^ 2) 0) / (recent.length : ℚ)

/-- The gain adjustment of `continuousAdaptation`, given the mean and
variance of the recent errors. -/
def adaptGains (s : Ctrl) (avgError variance : ℚ) : Ctrl :=
  if avgError * (1/2) < 0 ∨ (avgError * (1/2)) ^ 2 < variance then
    { s with Kp := s.Kp * (95/100), Kd := s.Kd * (95/100) }
  else if avgError > s.hysteresis * 2 then
    { s with Kp := s.Kp * (102/100) }
  else s

/-- The re-clamp of all three gains at the end of `continuousAdaptation`. -/
def reclampGains (s : Ctrl) : Ctrl :=
  { s with
    Kp := clampQ s.Kp (1/10) 5
    Ki := clampQ s.Ki (1/1000) (1/2)
    Kd := clampQ s.Kd 0 2 }

/-- The change detection at the end of `continuousAdaptation`: raise the
persistence flag when Kp or Kd differs from its remembered old value. -/
def flagIfChanged (s : Ctrl) (oldKp oldKd : ℚ) : Ctrl :=
  if s.Kp ≠ oldKp ∨ s.Kd ≠ oldKd then { s with parametersChanged := true } else s

def continuousAdaptation (s : Ctrl) : Ctrl :=
  if s.performanceHistory.length < s.adaptationInterval then s
  else
    flagIfChanged
      (reclampGains (adaptGains s
        (recentMean (s.performanceHistory.drop
          (s.performanceHistory.length - s.adaptationInterval)))
        (recentVariance (s.performanceHistory.drop
          (s.performanceHistory.length - s.adaptationInterval)))))
      s.Kp s.Kd

/-- The periodic-adaptation trigger at the end of `trackPerformance`:
run `continuousAdaptation` every `adaptationInterval` samples. -/
def trackAdapt (s1 : Ctrl) : Ctrl :=
  if s1.adaptationInterval ≤ s1.performanceHistory.length ∧
      s1.performanceHistory.length % s1.adaptationInterval = 0 then
    continuousAdaptation s1
  else s1

/-- `trackPerformance(error)`: push `|error|` into the capped performance
buffer, then run the periodic-adaptation trigger. -/
def trackPerformance (s : Ctrl) (error : ℚ) : Ctrl :=
  trackAdapt { s with
    performanceHistory := boundedPush (s.performanceHistory ++ [|error|]) 1000 }

/-- The state after the prologue of `update`: the clock stamp, the boost
expiry check and the effective-target resolution, before any reading is
recorded. -/
def resolvedState (s : Ctrl) (now : ℤ) (t : TimeInfo) : Ctrl :=
  calculateEffectiveTarget t (checkBoostExpiry now { s with lastUpdateTime := some now })

/-- The control error `targetTemp - currentTemp` as `update` computes it
after target resolution. -/
def resolvedError (s : Ctrl) (now : ℤ) (t : TimeInfo) (currentTemp : ℚ) : ℚ :=
  (resolvedState s now t).targetTemp - currentTemp

/-- The elapsed-seconds computation at the top of `update`: measured from
the previous update instant, or assumed to be one sample interval on the
first call. -/
def updateDt (s : Ctrl) (now : ℤ) : ℚ :=
  match s.lastUpdateTime with
  | some prev => ((now - prev : ℤ) : ℚ) / 1000
  | none => s.sampleInterval / 1000

/-- The idle early-return of `update` (heat mode with the room too warm,
or cool mode with the room too cold): emit the rounded target and relax
the integral accumulator by the error magnitude, floored at zero. -/
def updateIdle (s2 : Ctrl) (currentTemp : ℚ) : Ctrl × ℚ :=
  ({ s2 with
      lastOutput := some (roundToPrecision s2 s2.targetTemp),
      integral := max 0 (s2.integral - |s2.targetTemp - currentTemp|) },
    roundToPrecision s2 (roundToPrecision s2 s2.targetTemp))

/-- The raw-setpoint computation of `update`: bias the target by the PID
adjustment in the active direction, and enforce the minimum one-precision
step only outside the hysteresis band.  The fields consulted
(`targetTemp`, `precision`, `hysteresis`) are unchanged since target
resolution. -/
def shapeRaw (s4 : Ctrl) (adjustment error : ℚ) (activeMode : String) : ℚ :=
  if activeMode = "cool" then
    if ¬(|error| < s4.hysteresis) ∧ s4.targetTemp - s4.precision < s4.targetTemp - adjustment then
      s4.targetTemp - s4.precision
    else s4.targetTemp - adjustment
  else
    if ¬(|error| < s4.hysteresis) ∧ s4.targetTemp + adjustment < s4.targetTemp + s4.precision then
      s4.targetTemp + s4.precision
    else s4.targetTemp + adjustment

/-- The rate limiter of `update`: the setpoint may move at most
`maxOutputChange` away from the previous emitted setpoint, in the
direction of the unbounded raw value. -/
def rateLimited (s4 : Ctrl) (raw0 : ℚ) : ℚ :=
  match s4.lastOutput with
  | some lo =>
    if s4.maxOutputChange < |raw0 - lo| then lo + jsSign (raw0 - lo) * s4.maxOutputChange
    else raw0
  | none => raw0

/-- The full setpoint shaper: minimum step, rate limit, clamp to bounds,
round to precision. -/
def shapedOutput (s4 : Ctrl) (adjustment error : ℚ) (activeMode : String) : ℚ :=
  roundToPrecision s4
    (clampQ (rateLimited s4 (shapeRaw s4 adjustment error activeMode)) s4.minTemp s4.maxTemp)

/-- The main body of `update` past the early returns: learning, PID,
setpoint shaping, state stores and performance tracking. -/
def updateCore (s2 : Ctrl) (now : ℤ) (dt currentTemp : ℚ) : Ctrl × ℚ :=
  let error := s2.targetTemp - currentTemp
  let activeMode := if s2.mode = "heat_cool" then (if 0 < error then "heat" else "cool") else s2.mode
  let s3 := if s2.learningPhase ∧ ¬s2.learningComplete then learn s2 now else s2
  let pr := calculatePID s3 error dt activeMode
  let output := shapedOutput pr.1 pr.2.adjustment error activeMode
  let s5 := { pr.1 with lastError := error, lastTemp := some currentTemp, lastOutput := some output }
  let s6 := if s5.learningPhase = false then trackPerformance s5 error else s5
  (s6, roundToPrecision s6 output)

/-- `update(currentTemp)`, with the clock reading and the time-provider
result passed in.  Returns the new controller state and the emitted
setpoint (the `output` field of the source's return value, which is the
computed output passed once more through `roundToPrecision` by
`createOutput`). -/
def update (s : Ctrl) (now : ℤ) (t : TimeInfo) (currentTemp : ℚ) : Ctrl × ℚ :=
  let s1 := resolvedState s now t
  if s1.operatingMode = "off" then
    (s1, roundToPrecision s1 (roundToPrecision s1 s1.minTemp))
  else
    let s2 := recordTemperature s1 currentTemp now
    if s2.mode = "heat" ∧ s2.targetTemp - currentTemp < 0 then updateIdle s2 currentTemp
    else if s2.mode = "cool" ∧ 0 < s2.targetTemp - currentTemp then updateIdle s2 currentTemp
    else updateCore s2 now (updateDt s now) currentTemp

/-- `setSetpoint(temp)`: `none` models a non-numeric or NaN argument,
which the source's `typeof temp === 'number' && !isNaN(temp)` guard
silently rejects. -/
def setSetpoint (s : Ctrl) (temp : Option ℚ) : Ctrl :=
  match temp with
  | some v =>
    { s with baseTargetTemp := clampQ v s.minTemp s.maxTemp,
             targetTemp := clampQ v s.minTemp s.maxTemp,
             integral := 0 }
  | none => s

/-- `setOperatingMode(mode)`: accepted only for the three known values. -/
def setOperatingMode (s : Ctrl) (m : String) : Ctrl :=
  if m = "manual" ∨ m = "schedule" ∨ m = "off" then
    { s with operatingMode := m, integral := 0 }
  else s

/-- `setMode(mode)`: legacy names are normalized first, then the result is
accepted only when it is one of the three HVAC modes. -/
def setMode (s : Ctrl) (m : String) : Ctrl :=
  let normalized :=
    if m = "heating" then "heat"
    else if m = "cooling" then "cool"
    else if m = "auto" then "heat_cool"
    else m
  if normalized = "heat" ∨ normalized = "cool" ∨ normalized = "heat_cool" then
    { s with mode := normalized, integral := 0 }
  else s

/-- `hasParametersChanged()`: returns the flag and clears it. -/
def hasParametersChanged (s : Ctrl) : Bool × Ctrl :=
  (s.parametersChanged, { s with parametersChanged := false })

/-- Heating/cooling activation latch state of the Node-RED node
(`wasHeatingActive` / `wasCoolingActive` closure variables). -/
structure Latch where
  wasHeatingActive : Bool
  wasCoolingActive : Bool
deriving DecidableEq

/-- One pass of the activation-latch block of the node's input handler,
fed with the values it reads from the update result. -/
def latchStep (operatingMode activeMode : String) (error hysteresis output targetTemp precision : ℚ)
    (trend : String) (l : Latch) : Latch × Bool :=
  if operatingMode = "off" then (⟨false, false⟩, false)
  else if activeMode = "heat" then
    let setpointAboveTarget := targetTemp + precision < output
    let tempFalling := trend = "cooling"
    let wh :=
      if hysteresis < error then true
      else if setpointAboveTarget ∧ tempFalling ∧ 0 < error then true
      else if error ≤ 0 then false
      else l.wasHeatingActive
    ({ l with wasHeatingActive := wh }, wh)
  else if activeMode = "cool" then
    let setpointBelowTarget := output < targetTemp - precision
    let tempRising := trend = "warming"
    let wc :=
      if error < -hysteresis then true
      else if setpointBelowTarget ∧ tempRising ∧ error < 0 then true
      else if 0 ≤ error then false
      else l.wasCoolingActive
    ({ l with wasCoolingActive := wc }, wc)
  else (l, false)

/-- A sequence of `update` calls on one instance, each with its clock
reading, time-provider result and temperature sample. -/
def updateRun (s : Ctrl) : List (ℤ × TimeInfo × ℚ) → Ctrl
  | [] => s
  | (n, t, temp) :: rest => updateRun (update s n t temp).1 rest

/-- The run condition of the anti-windup property: on every cycle the
measured temperature exceeds the effective target resolved on that cycle
(the control error is negative throughout). -/
def overshootRun (s : Ctrl) : List (ℤ × TimeInfo × ℚ) → Prop
  | [] => True
  | (n, t, temp) :: rest =>
      resolvedError s n t temp < 0 ∧ overshootRun (update s n t temp).1 rest

/-- The state invariant of the integral accumulator: configured bounds in
order, gains inside the tuning clamp range, and the accumulator inside
the anti-windup window `[0, (maxTemp - minTemp) / (2 * Ki)]`. -/
def CtrlInv (s : Ctrl) : Prop :=
  s.minTemp ≤ s.maxTemp ∧ 1/1000 ≤ s.Ki ∧ s.Ki ≤ 1/2 ∧
    0 ≤ s.integral ∧ s.integral ≤ (s.maxTemp - s.minTemp) / (2 * s.Ki)

/-! Concrete controller instances used to evaluate the properties. -/

/-- A freshly constructed controller with learning disabled
(`new AdaptiveController({learningEnabled: false})`). -/
def tunedCtrl : Ctrl := { ctorDefaults with learningEnabled := false, learningPhase := false }

/-- A time-provider reading; the value is irrelevant when no schedule is
configured. -/
def someTime : TimeInfo := ⟨0, 0, 0⟩

/-- A controller one hour into its learning phase that has seen only two
samples inside the retention window. -/
def sparseLearner : Ctrl := { ctorDefaults with
  learningStartTime := some 0
  temperatureHistory := [(20, 3650000), (20, 3660000)] }

/-- A controller one hour into its learning phase holding thirty recent
samples of an unexcited (flat) plant. -/
def flatLearner : Ctrl := { ctorDefaults with
  learningStartTime := some 0
  temperatureHistory := (List.range 30).map (fun i => (20, 3650000 + 1000 * (i : ℤ))) }

/-- A controller whose gains already equal the Cohen-Coon result for a
time constant of 1800 s and a dead time of 900 s. -/
def preTunedCtrl : Ctrl := { ctorDefaults with Kp := 9/5, Ki := 1/1000, Kd := 2 }

/-- A controller at an adaptation boundary: a two-sample adaptation
interval and exactly two recorded absolute errors. -/
def adaptBoundaryCtrl : Ctrl := { ctorDefaults with
  adaptationInterval := 2
  performanceHistory := [1, 1] }

/-- A schedule with Monday slots at 06:00 and 22:00 only and a Tuesday
slot strictly after 02:00. -/
def mondaySchedule : Schedule := ⟨[], [⟨6, 0, 19⟩, ⟨22, 0, 17⟩], [⟨6, 30, 23⟩], [], [], [], []⟩

/-- A restored learning state requiring only two samples, one hour past
its learning start, with two recent flat samples. -/
def quickLearner : Ctrl := { ctorDefaults with
  samplesNeeded := 2
  learningStartTime := some 0
  temperatureHistory := [(20, 3650000), (20, 3660000)] }

/-- A controller in `off` operating mode with a recorded update instant. -/
def offCtrl : Ctrl := { ctorDefaults with operatingMode := "off", lastUpdateTime := some 5 }

/-- A controller with an unexpired boost, away mode and a schedule all
set, to exercise the priority law. -/
def boostedCtrl : Ctrl := { ctorDefaults with
  boostActive := true
  boostTemp := some 24
  boostEndTime := some 1000
  awayMode := true
  schedule := some mondaySchedule }

/-! Helper lemmas about the numeric primitives. -/

lemma clampQ_le_hi (value lo hi : ℚ) : clampQ value lo hi ≤ hi := min_le_right _ _

lemma lo_le_clampQ (value : ℚ) {lo hi : ℚ} (h : lo ≤ hi) : lo ≤ clampQ value lo hi :=
  le_min (le_max_right _ _) h

lemma clampQ_eq_self {x lo hi : ℚ} (h1 : lo ≤ x) (h2 : x ≤ hi) : clampQ x lo hi = x := by
  unfold clampQ
  rw [max_eq_left h1, min_eq_left h2]

lemma abs_clampQ_sub_le {x y lo hi : ℚ} (h1 : lo ≤ y) (h2 : y ≤ hi) :
    |clampQ x lo hi - y| ≤ |x - y| := by
  have hA : min x hi ≤ clampQ x lo hi := min_le_min (le_max_left x lo) le_rfl
  have hB : clampQ x lo hi ≤ max x lo := min_le_left _ _
  have h4 : max x lo ≤ y + |x - y| :=
    max_le (by linarith [le_abs_self (x - y)]) (by linarith [abs_nonneg (x - y)])
  have h5 : y - |x - y| ≤ min x hi :=
    le_min (by linarith [neg_abs_le (x - y)]) (by linarith [abs_nonneg (x - y)])
  rw [abs_le]
  constructor <;> linarith

lemma abs_jsSign_mul_le {m : ℚ} (x : ℚ) (hm : 0 ≤ m) : |jsSign x * m| ≤ m := by
  unfold jsSign
  split_ifs <;> simp [abs_of_nonneg hm, hm]

lemma abs_roundToPrecision_sub_le (s : Ctrl) (x : ℚ) (hp : 0 < s.precision) :
    |roundToPrecision s x - x| ≤ s.precision / 2 := by
  have hp0 : s.precision ≠ 0 := ne_of_gt hp
  have h1 : ((⌊x / s.precision + 1/2⌋ : ℤ) : ℚ) ≤ x / s.precision + 1/2 := Int.floor_le _
  have h2 : x / s.precision + 1/2 < ((⌊x / s.precision + 1/2⌋ : ℤ) : ℚ) + 1 :=
    Int.lt_floor_add_one _
  have hx : x / s.precision * s.precision = x := div_mul_cancel₀ x hp0
  rw [roundToPrecision, jsRound, abs_le]
  constructor <;> nlinarith [hp.le]

lemma roundToPrecision_idem (s : Ctrl) (x : ℚ) :
    roundToPrecision s (roundToPrecision s x) = roundToPrecision s x := by
  by_cases hp : s.precision = 0
  · simp [roundToPrecision, hp]
  · unfold roundToPrecision jsRound
    rw [mul_div_cancel_right₀ _ hp, Int.floor_int_add]
    norm_num

/-! Frame lemmas: which fields each pipeline stage can write. -/

lemma checkBoostExpiry_cases (now : ℤ) (s : Ctrl) :
    checkBoostExpiry now s = s ∨
      checkBoostExpiry now s =
        { s with boostActive := false, boostTemp := none, boostEndTime := none } := by
  unfold checkBoostExpiry
  cases h : s.boostEndTime
  · exact Or.inl rfl
  · dsimp only
    split_ifs
    · exact Or.inr rfl
    · exact Or.inl rfl

lemma resolvedState_eq (s : Ctrl) (now : ℤ) (t : TimeInfo) :
    resolvedState s now t =
      { s with lastUpdateTime := some now,
               targetTemp := (resolvedState s now t).targetTemp,
               boostActive := (resolvedState s now t).boostActive,
               boostTemp := (resolvedState s now t).boostTemp,
               boostEndTime := (resolvedState s now t).boostEndTime } := by
  unfold resolvedState calculateEffectiveTarget
  rcases checkBoostExpiry_cases now { s with lastUpdateTime := some now } with h | h <;>
    rw [h]

lemma recordTemperature_eq (s : Ctrl) (temp : ℚ) (ts : ℤ) :
    recordTemperature s temp ts =
      { s with temperatureHistory := (recordTemperature s temp ts).temperatureHistory,
               trendWindow := (recordTemperature s temp ts).trendWindow } := rfl

lemma calculatePID_fst_eq (s : Ctrl) (error dt : ℚ) (m : String) :
    (calculatePID s error dt m).1 =
      { s with integral := (calculatePID s error dt m).1.integral } := rfl

/-- Frame relation for the learning and adaptation stages: `b` agrees
with `a` on every field outside the gain/learning/performance group those
stages are allowed to write. -/
def TunesOnly (a b : Ctrl) : Prop :=
  b.minTemp = a.minTemp ∧
    b.maxTemp = a.maxTemp ∧
    b.targetTemp = a.targetTemp ∧
    b.baseTargetTemp = a.baseTargetTemp ∧
    b.hysteresis = a.hysteresis ∧
    b.sampleInterval = a.sampleInterval ∧
    b.learningEnabled = a.learningEnabled ∧
    b.maxOutputChange = a.maxOutputChange ∧
    b.precision = a.precision ∧
    b.mode = a.mode ∧
    b.operatingMode = a.operatingMode ∧
    b.schedule = a.schedule ∧
    b.boostActive = a.boostActive ∧
    b.boostTemp = a.boostTemp ∧
    b.boostEndTime = a.boostEndTime ∧
    b.awayMode = a.awayMode ∧
    b.awayTemp = a.awayTemp ∧
    b.integral = a.integral ∧
    b.lastError = a.lastError ∧
    b.lastTemp = a.lastTemp ∧
    b.lastOutput = a.lastOutput ∧
    b.lastUpdateTime = a.lastUpdateTime ∧
    b.temperatureHistory = a.temperatureHistory ∧
    b.samplesNeeded = a.samplesNeeded ∧
    b.adaptationInterval = a.adaptationInterval ∧
    b.trendWindow = a.trendWindow ∧
    b.trendWindowSize = a.trendWindowSize

lemma tunesOnly_refl (a : Ctrl) : TunesOnly a a := ⟨rfl, rfl, rfl, rfl, rfl, rfl, rfl, rfl, rfl, rfl, rfl, rfl, rfl, rfl, rfl, rfl, rfl, rfl, rfl, rfl, rfl, rfl, rfl, rfl, rfl, rfl, rfl⟩

lemma tunesOnly_trans {a b c : Ctrl} (h1 : TunesOnly a b) (h2 : TunesOnly b c) :
    TunesOnly a c := by
  obtain ⟨a0, a1, a2, a3, a4, a5, a6, a7, a8, a9, a10, a11, a12, a13, a14, a15, a16, a17, a18, a19, a20, a21, a22, a23, a24, a25, a26⟩ := h1
  obtain ⟨b0, b1, b2, b3, b4, b5, b6, b7, b8, b9, b10, b11, b12, b13, b14, b15, b16, b17, b18, b19, b20, b21, b22, b23, b24, b25, b26⟩ := h2
  exact ⟨b0.trans a0, b1.trans a1, b2.trans a2, b3.trans a3, b4.trans a4, b5.trans a5, b6.trans a6, b7.trans a7, b8.trans a8, b9.trans a9, b10.trans a10, b11.trans a11, b12.trans a12, b13.trans a13, b14.trans a14, b15.trans a15, b16.trans a16, b17.trans a17, b18.trans a18, b19.trans a19, b20.trans a20, b21.trans a21, b22.trans a22, b23.trans a23, b24.trans a24, b25.trans a25, b26.trans a26⟩

lemma tunesOnly_learnStart (s : Ctrl) (now : ℤ) : TunesOnly s (learnStart s now) := by
  unfold TunesOnly learnStart
  split_ifs <;> exact ⟨rfl, rfl, rfl, rfl, rfl, rfl, rfl, rfl, rfl, rfl, rfl, rfl, rfl, rfl, rfl, rfl, rfl, rfl, rfl, rfl, rfl, rfl, rfl, rfl, rfl, rfl, rfl⟩

lemma tunesOnly_adaptPIDParameters (s : Ctrl) (c : ThermalChar) :
    TunesOnly s (adaptPIDParameters s c) := by
  unfold TunesOnly adaptPIDParameters
  split_ifs <;> exact ⟨rfl, rfl, rfl, rfl, rfl, rfl, rfl, rfl, rfl, rfl, rfl, rfl, rfl, rfl, rfl, rfl, rfl, rfl, rfl, rfl, rfl, rfl, rfl, rfl, rfl, rfl, rfl⟩

lemma tunesOnly_completeLearning (s : Ctrl) : TunesOnly s (completeLearning s) :=
  ⟨rfl, rfl, rfl, rfl, rfl, rfl, rfl, rfl, rfl, rfl, rfl, rfl, rfl, rfl, rfl, rfl, rfl, rfl, rfl, rfl, rfl, rfl, rfl, rfl, rfl, rfl, rfl⟩

lemma tunesOnly_learnEstimate (s1 : Ctrl) : TunesOnly s1 (learnEstimate s1) := by
  unfold learnEstimate
  split_ifs
  · exact tunesOnly_trans (tunesOnly_adaptPIDParameters _ _) (tunesOnly_completeLearning _)
  · exact tunesOnly_refl _

lemma tunesOnly_learn (s : Ctrl) (now : ℤ) : TunesOnly s (learn s now) := by
  unfold learn
  split_ifs
  · exact tunesOnly_learnStart _ _
  · exact tunesOnly_trans (tunesOnly_learnStart _ _)
      (tunesOnly_trans (tunesOnly_learnEstimate _) (tunesOnly_completeLearning _))
  · exact tunesOnly_trans (tunesOnly_learnStart _ _) (tunesOnly_learnEstimate _)

lemma tunesOnly_adaptGains (s : Ctrl) (a v : ℚ) : TunesOnly s (adaptGains s a v) := by
  unfold TunesOnly adaptGains
  split_ifs <;> exact ⟨rfl, rfl, rfl, rfl, rfl, rfl, rfl, rfl, rfl, rfl, rfl, rfl, rfl, rfl, rfl, rfl, rfl, rfl, rfl, rfl, rfl, rfl, rfl, rfl, rfl, rfl, rfl⟩

lemma tunesOnly_reclampGains (s : Ctrl) : TunesOnly s (reclampGains s) :=
  ⟨rfl, rfl, rfl, rfl, rfl, rfl, rfl, rfl, rfl, rfl, rfl, rfl, rfl, rfl, rfl, rfl, rfl, rfl, rfl, rfl, rfl, rfl, rfl, rfl, rfl, rfl, rfl⟩

lemma tunesOnly_flagIfChanged (s : Ctrl) (p q : ℚ) : TunesOnly s (flagIfChanged s p q) := by
  unfold TunesOnly flagIfChanged
  split_ifs <;> exact ⟨rfl, rfl, rfl, rfl, rfl, rfl, rfl, rfl, rfl, rfl, rfl, rfl, rfl, rfl, rfl, rfl, rfl, rfl, rfl, rfl, rfl, rfl, rfl, rfl, rfl, rfl, rfl⟩

lemma tunesOnly_continuousAdaptation (s : Ctrl) : TunesOnly s (continuousAdaptation s) := by
  unfold continuousAdaptation
  split_ifs
  · exact tunesOnly_refl _
  · exact tunesOnly_trans (tunesOnly_adaptGains _ _ _)
      (tunesOnly_trans (tunesOnly_reclampGains _) (tunesOnly_flagIfChanged _ _ _))

lemma tunesOnly_trackAdapt (s1 : Ctrl) : TunesOnly s1 (trackAdapt s1) := by
  unfold trackAdapt
  split_ifs
  · exact tunesOnly_continuousAdaptation _
  · exact tunesOnly_refl _

lemma tunesOnly_trackPerformance (s : Ctrl) (e : ℚ) : TunesOnly s (trackPerformance s e) := by
  unfold trackPerformance
  exact tunesOnly_trans (show TunesOnly s _ from ⟨rfl, rfl, rfl, rfl, rfl, rfl, rfl, rfl, rfl, rfl, rfl, rfl, rfl, rfl, rfl, rfl, rfl, rfl, rfl, rfl, rfl, rfl, rfl, rfl, rfl, rfl, rfl⟩) (tunesOnly_trackAdapt _)

/-! Projections preserved by the target-resolution prologue. -/

lemma resolvedState_operatingMode (s : Ctrl) (now : ℤ) (t : TimeInfo) :
    (resolvedState s now t).operatingMode = s.operatingMode := by
  rw [resolvedState_eq s now t]

lemma resolvedState_mode (s : Ctrl) (now : ℤ) (t : TimeInfo) :
    (resolvedState s now t).mode = s.mode := by
  rw [resolvedState_eq s now t]

lemma resolvedState_integral (s : Ctrl) (now : ℤ) (t : TimeInfo) :
    (resolvedState s now t).integral = s.integral := by
  rw [resolvedState_eq s now t]

lemma resolvedState_Kp (s : Ctrl) (now : ℤ) (t : TimeInfo) :
    (resolvedState s now t).Kp = s.Kp := by
  rw [resolvedState_eq s now t]

lemma resolvedState_Ki (s : Ctrl) (now : ℤ) (t : TimeInfo) :
    (resolvedState s now t).Ki = s.Ki := by
  rw [resolvedState_eq s now t]

lemma resolvedState_Kd (s : Ctrl) (now : ℤ) (t : TimeInfo) :
    (resolvedState s now t).Kd = s.Kd := by
  rw [resolvedState_eq s now t]

lemma resolvedState_minTemp (s : Ctrl) (now : ℤ) (t : TimeInfo) :
    (resolvedState s now t).minTemp = s.minTemp := by
  rw [resolvedState_eq s now t]

lemma resolvedState_maxTemp (s : Ctrl) (now : ℤ) (t : TimeInfo) :
    (resolvedState s now t).maxTemp = s.maxTemp := by
  rw [resolvedState_eq s now t]

lemma resolvedState_precision (s : Ctrl) (now : ℤ) (t : TimeInfo) :
    (resolvedState s now t).precision = s.precision := by
  rw [resolvedState_eq s now t]

lemma resolvedState_maxOutputChange (s : Ctrl) (now : ℤ) (t : TimeInfo) :
    (resolvedState s now t).maxOutputChange = s.maxOutputChange := by
  rw [resolvedState_eq s now t]

lemma resolvedState_hysteresis (s : Ctrl) (now : ℤ) (t : TimeInfo) :
    (resolvedState s now t).hysteresis = s.hysteresis := by
  rw [resolvedState_eq s now t]

lemma resolvedState_lastOutput (s : Ctrl) (now : ℤ) (t : TimeInfo) :
    (resolvedState s now t).lastOutput = s.lastOutput := by
  rw [resolvedState_eq s now t]

lemma resolvedState_lastError (s : Ctrl) (now : ℤ) (t : TimeInfo) :
    (resolvedState s now t).lastError = s.lastError := by
  rw [resolvedState_eq s now t]

lemma resolvedState_lastTemp (s : Ctrl) (now : ℤ) (t : TimeInfo) :
    (resolvedState s now t).lastTemp = s.lastTemp := by
  rw [resolvedState_eq s now t]

lemma resolvedState_learningPhase (s : Ctrl) (now : ℤ) (t : TimeInfo) :
    (resolvedState s now t).learningPhase = s.learningPhase := by
  rw [resolvedState_eq s now t]

lemma resolvedState_learningComplete (s : Ctrl) (now : ℤ) (t : TimeInfo) :
    (resolvedState s now t).learningComplete = s.learningComplete := by
  rw [resolvedState_eq s now t]

lemma resolvedState_learningStartTime (s : Ctrl) (now : ℤ) (t : TimeInfo) :
    (resolvedState s now t).learningStartTime = s.learningStartTime := by
  rw [resolvedState_eq s now t]

lemma resolvedState_samplesNeeded (s : Ctrl) (now : ℤ) (t : TimeInfo) :
    (resolvedState s now t).samplesNeeded = s.samplesNeeded := by
  rw [resolvedState_eq s now t]

lemma resolvedState_temperatureHistory (s : Ctrl) (now : ℤ) (t : TimeInfo) :
    (resolvedState s now t).temperatureHistory = s.temperatureHistory := by
  rw [resolvedState_eq s now t]

lemma resolvedState_trendWindow (s : Ctrl) (now : ℤ) (t : TimeInfo) :
    (resolvedState s now t).trendWindow = s.trendWindow := by
  rw [resolvedState_eq s now t]

lemma resolvedState_trendWindowSize (s : Ctrl) (now : ℤ) (t : TimeInfo) :
    (resolvedState s now t).trendWindowSize = s.trendWindowSize := by
  rw [resolvedState_eq s now t]

lemma resolvedState_performanceHistory (s : Ctrl) (now : ℤ) (t : TimeInfo) :
    (resolvedState s now t).performanceHistory = s.performanceHistory := by
  rw [resolvedState_eq s now t]

lemma resolvedState_adaptationInterval (s : Ctrl) (now : ℤ) (t : TimeInfo) :
    (resolvedState s now t).adaptationInterval = s.adaptationInterval := by
  rw [resolvedState_eq s now t]

lemma resolvedState_schedule (s : Ctrl) (now : ℤ) (t : TimeInfo) :
    (resolvedState s now t).schedule = s.schedule := by
  rw [resolvedState_eq s now t]

lemma resolvedState_baseTargetTemp (s : Ctrl) (now : ℤ) (t : TimeInfo) :
    (resolvedState s now t).baseTargetTemp = s.baseTargetTemp := by
  rw [resolvedState_eq s now t]

lemma resolvedState_awayMode (s : Ctrl) (now : ℤ) (t : TimeInfo) :
    (resolvedState s now t).awayMode = s.awayMode := by
  rw [resolvedState_eq s now t]

lemma resolvedState_awayTemp (s : Ctrl) (now : ℤ) (t : TimeInfo) :
    (resolvedState s now t).awayTemp = s.awayTemp := by
  rw [resolvedState_eq s now t]

lemma resolvedState_lastUpdateTime (s : Ctrl) (now : ℤ) (t : TimeInfo) :
    (resolvedState s now t).lastUpdateTime = some now := by
  rw [resolvedState_eq s now t]

/-! Projection corollaries of the frame relations. -/

lemma learn_integral (s : Ctrl) (now : ℤ) : (learn s now).integral = s.integral :=
  (tunesOnly_learn s now).2.2.2.2.2.2.2.2.2.2.2.2.2.2.2.2.2.1

lemma learn_minTemp (s : Ctrl) (now : ℤ) : (learn s now).minTemp = s.minTemp :=
  (tunesOnly_learn s now).1

lemma learn_maxTemp (s : Ctrl) (now : ℤ) : (learn s now).maxTemp = s.maxTemp :=
  (tunesOnly_learn s now).2.1

lemma learn_targetTemp (s : Ctrl) (now : ℤ) : (learn s now).targetTemp = s.targetTemp :=
  (tunesOnly_learn s now).2.2.1

lemma learn_precision (s : Ctrl) (now : ℤ) : (learn s now).precision = s.precision :=
  (tunesOnly_learn s now).2.2.2.2.2.2.2.2.1

lemma learn_maxOutputChange (s : Ctrl) (now : ℤ) : (learn s now).maxOutputChange = s.maxOutputChange :=
  (tunesOnly_learn s now).2.2.2.2.2.2.2.1

lemma learn_hysteresis (s : Ctrl) (now : ℤ) : (learn s now).hysteresis = s.hysteresis :=
  (tunesOnly_learn s now).2.2.2.2.1

lemma learn_lastOutput (s : Ctrl) (now : ℤ) : (learn s now).lastOutput = s.lastOutput :=
  (tunesOnly_learn s now).2.2.2.2.2.2.2.2.2.2.2.2.2.2.2.2.2.2.2.2.1

lemma learn_lastError (s : Ctrl) (now : ℤ) : (learn s now).lastError = s.lastError :=
  (tunesOnly_learn s now).2.2.2.2.2.2.2.2.2.2.2.2.2.2.2.2.2.2.1

lemma learn_mode (s : Ctrl) (now : ℤ) : (learn s now).mode = s.mode :=
  (tunesOnly_learn s now).2.2.2.2.2.2.2.2.2.1

lemma trackPerformance_integral (s : Ctrl) (e : ℚ) : (trackPerformance s e).integral = s.integral :=
  (tunesOnly_trackPerformance s e).2.2.2.2.2.2.2.2.2.2.2.2.2.2.2.2.2.1

lemma trackPerformance_minTemp (s : Ctrl) (e : ℚ) : (trackPerformance s e).minTemp = s.minTemp :=
  (tunesOnly_trackPerformance s e).1

lemma trackPerformance_maxTemp (s : Ctrl) (e : ℚ) : (trackPerformance s e).maxTemp = s.maxTemp :=
  (tunesOnly_trackPerformance s e).2.1

lemma trackPerformance_precision (s : Ctrl) (e : ℚ) : (trackPerformance s e).precision = s.precision :=
  (tunesOnly_trackPerformance s e).2.2.2.2.2.2.2.2.1

lemma trackPerformance_lastOutput (s : Ctrl) (e : ℚ) : (trackPerformance s e).lastOutput = s.lastOutput :=
  (tunesOnly_trackPerformance s e).2.2.2.2.2.2.2.2.2.2.2.2.2.2.2.2.2.2.2.2.1

lemma trackPerformance_mode (s : Ctrl) (e : ℚ) : (trackPerformance s e).mode = s.mode :=
  (tunesOnly_trackPerformance s e).2.2.2.2.2.2.2.2.2.1

lemma trackPerformance_targetTemp (s : Ctrl) (e : ℚ) : (trackPerformance s e).targetTemp = s.targetTemp :=
  (tunesOnly_trackPerformance s e).2.2.1

lemma trackPerformance_lastError (s : Ctrl) (e : ℚ) : (trackPerformance s e).lastError = s.lastError :=
  (tunesOnly_trackPerformance s e).2.2.2.2.2.2.2.2.2.2.2.2.2.2.2.2.2.2.1

lemma trackPerformance_lastTemp (s : Ctrl) (e : ℚ) : (trackPerformance s e).lastTemp = s.lastTemp :=
  (tunesOnly_trackPerformance s e).2.2.2.2.2.2.2.2.2.2.2.2.2.2.2.2.2.2.2.1

lemma trackPerformance_lastUpdateTime (s : Ctrl) (e : ℚ) : (trackPerformance s e).lastUpdateTime = s.lastUpdateTime :=
  (tunesOnly_trackPerformance s e).2.2.2.2.2.2.2.2.2.2.2.2.2.2.2.2.2.2.2.2.2.1

lemma trackPerformance_temperatureHistory (s : Ctrl) (e : ℚ) : (trackPerformance s e).temperatureHistory = s.temperatureHistory :=
  (tunesOnly_trackPerformance s e).2.2.2.2.2.2.2.2.2.2.2.2.2.2.2.2.2.2.2.2.2.2.1

lemma trackPerformance_trendWindow (s : Ctrl) (e : ℚ) : (trackPerformance s e).trendWindow = s.trendWindow :=
  (tunesOnly_trackPerformance s e).2.2.2.2.2.2.2.2.2.2.2.2.2.2.2.2.2.2.2.2.2.2.2.2.2.1

/-! Assorted support lemmas. -/

lemma roundToPrecision_congr {a b : Ctrl} (x : ℚ) (h : a.precision = b.precision) :
    roundToPrecision a x = roundToPrecision b x := by
  unfold roundToPrecision
  rw [h]

lemma rateLimit_close (lo raw0 maxC : ℚ) (hmaxc : 0 ≤ maxC) :
    |(if maxC < |raw0 - lo| then lo + jsSign (raw0 - lo) * maxC else raw0) - lo| ≤ maxC := by
  split_ifs with h
  · have he : lo + jsSign (raw0 - lo) * maxC - lo = jsSign (raw0 - lo) * maxC := by ring
    rw [he]
    exact abs_jsSign_mul_le _ hmaxc
  · exact le_of_not_lt h

lemma adaptGains_parametersChanged (s : Ctrl) (a v : ℚ) :
    (adaptGains s a v).parametersChanged = s.parametersChanged := by
  unfold adaptGains
  split_ifs <;> rfl

lemma trackPerformance_learning (s : Ctrl) (e : ℚ) :
    (trackPerformance s e).learningComplete = s.learningComplete ∧
    (trackPerformance s e).learningPhase = s.learningPhase ∧
    (trackPerformance s e).learningStartTime = s.learningStartTime := by
  unfold trackPerformance trackAdapt continuousAdaptation flagIfChanged reclampGains adaptGains
  split_ifs <;> exact ⟨rfl, rfl, rfl⟩

lemma scanSlots_none (ct : ℕ) (l : List Slot) (a : Option Slot)
    (h : ∀ sl ∈ l, ct < sl.minutes) :
    l.foldl (fun acc sl => if sl.minutes ≤ ct then some sl else acc) a = a := by
  induction l generalizing a with
  | nil => rfl
  | cons x xs ih =>
    rw [List.foldl_cons, if_neg (Nat.not_le.mpr (h x (List.mem_cons_self x xs)))]
    exact ih a (fun sl hm => h sl (List.mem_cons_of_mem x hm))

lemma learn_completes (s2 : Ctrl) (now t0 : ℤ)
    (hstart : s2.learningStartTime = some t0)
    (helapsed : 3600000 < now - t0)
    (hsamples : s2.samplesNeeded ≤ s2.temperatureHistory.length) :
    (learn s2 now).learningComplete = true ∧ (learn s2 now).learningPhase = false := by
  have hls : learnStart s2 now = s2 := by
    unfold learnStart
    rw [if_neg]
    rw [hstart]
    simp
  unfold learn
  rw [hls, if_neg (not_lt.mpr hsamples), if_pos]
  · exact ⟨rfl, rfl⟩
  · rw [hstart]
    simpa using helapsed

/-! Gain-bound lemmas for the same stages. -/

lemma learnStart_Ki (s : Ctrl) (now : ℤ) : (learnStart s now).Ki = s.Ki := by
  unfold learnStart
  split_ifs <;> rfl

lemma adaptPIDParameters_Ki (s : Ctrl) (c : ThermalChar) :
    (adaptPIDParameters s c).Ki = s.Ki ∨
      (1/1000 ≤ (adaptPIDParameters s c).Ki ∧ (adaptPIDParameters s c).Ki ≤ 1/2) := by
  unfold adaptPIDParameters
  split_ifs
  · exact Or.inl rfl
  · exact Or.inr ⟨lo_le_clampQ _ (by norm_num), clampQ_le_hi _ _ _⟩

lemma learn_Ki_bounds (s : Ctrl) (now : ℤ) (h1 : 1/1000 ≤ s.Ki) (h2 : s.Ki ≤ 1/2) :
    1/1000 ≤ (learn s now).Ki ∧ (learn s now).Ki ≤ 1/2 := by
  have hest : ∀ s1 : Ctrl, 1/1000 ≤ s1.Ki → s1.Ki ≤ 1/2 →
      1/1000 ≤ (learnEstimate s1).Ki ∧ (learnEstimate s1).Ki ≤ 1/2 := by
    intro s1 g1 g2
    unfold learnEstimate
    split_ifs
    · show 1/1000 ≤ (adaptPIDParameters s1 _).Ki ∧ (adaptPIDParameters s1 _).Ki ≤ 1/2
      rcases adaptPIDParameters_Ki s1 (estimateThermalCharacteristics s1) with h | h
      · rw [h]; exact ⟨g1, g2⟩
      · exact h
    · exact ⟨g1, g2⟩
  have hks : (learnStart s now).Ki = s.Ki := learnStart_Ki s now
  unfold learn
  split_ifs
  · rw [hks]; exact ⟨h1, h2⟩
  · show 1/1000 ≤ (learnEstimate _).Ki ∧ (learnEstimate _).Ki ≤ 1/2
    exact hest _ (hks ▸ h1) (hks ▸ h2)
  · exact hest _ (hks ▸ h1) (hks ▸ h2)

lemma continuousAdaptation_Ki (s : Ctrl) (h1 : 1/1000 ≤ s.Ki) (h2 : s.Ki ≤ 1/2) :
    (continuousAdaptation s).Ki = s.Ki := by
  unfold continuousAdaptation flagIfChanged reclampGains adaptGains
  split_ifs <;> first | rfl | exact clampQ_eq_self h1 h2

lemma trackPerformance_Ki (s : Ctrl) (e : ℚ) (h1 : 1/1000 ≤ s.Ki) (h2 : s.Ki ≤ 1/2) :
    (trackPerformance s e).Ki = s.Ki := by
  unfold trackPerformance trackAdapt
  split_ifs
  · exact continuousAdaptation_Ki _ h1 h2
  · rfl

/-! Lemmas about the PID step and the setpoint shaper. -/

lemma calculatePID_integral (s3 : Ctrl) (e dt : ℚ) (am : String)
    (hk1 : 1/1000 ≤ s3.Ki) (hmm : s3.minTemp ≤ s3.maxTemp) :
    0 ≤ (calculatePID s3 e dt am).1.integral ∧
    (calculatePID s3 e dt am).1.integral ≤ (s3.maxTemp - s3.minTemp) / (2 * s3.Ki) := by
  have hk : ¬(2 * s3.Ki = 0) := by
    have : (0:ℚ) < 2 * s3.Ki := by linarith
    exact ne_of_gt this
  have hlim : (0:ℚ) ≤ (s3.maxTemp - s3.minTemp) / (2 * s3.Ki) :=
    div_nonneg (by linarith) (by linarith)
  simp only [calculatePID]
  rw [if_neg hk]
  exact ⟨lo_le_clampQ _ hlim, clampQ_le_hi _ _ _⟩

lemma shapedOutput_close (s4 : Ctrl) (adj e : ℚ) (am : String) (lo : ℚ)
    (hlast : s4.lastOutput = some lo)
    (hlo1 : s4.minTemp ≤ lo) (hlo2 : lo ≤ s4.maxTemp)
    (hprec : 0 < s4.precision) (hmaxc : 0 ≤ s4.maxOutputChange) :
    |shapedOutput s4 adj e am - lo| ≤ s4.maxOutputChange + s4.precision / 2 := by
  unfold shapedOutput rateLimited
  rw [hlast]
  set raw0 := shapeRaw s4 adj e am with hraw0
  set raw := if s4.maxOutputChange < |raw0 - lo| then lo + jsSign (raw0 - lo) * s4.maxOutputChange
    else raw0 with hraw
  have h1 : |raw - lo| ≤ s4.maxOutputChange := rateLimit_close lo raw0 _ hmaxc
  have h2 : |clampQ raw s4.minTemp s4.maxTemp - lo| ≤ |raw - lo| := abs_clampQ_sub_le hlo1 hlo2
  have h3 : |roundToPrecision s4 (clampQ raw s4.minTemp s4.maxTemp) -
      clampQ raw s4.minTemp s4.maxTemp| ≤ s4.precision / 2 :=
    abs_roundToPrecision_sub_le s4 _ hprec
  calc |roundToPrecision s4 (clampQ raw s4.minTemp s4.maxTemp) - lo|
      ≤ |roundToPrecision s4 (clampQ raw s4.minTemp s4.maxTemp) -
          clampQ raw s4.minTemp s4.maxTemp| + |clampQ raw s4.minTemp s4.maxTemp - lo| :=
        abs_sub_le _ _ _
    _ ≤ s4.precision / 2 + s4.maxOutputChange := by linarith
    _ = s4.maxOutputChange + s4.precision / 2 := by ring

lemma s6_precision (s5 : Ctrl) (e : ℚ) :
    (if s5.learningPhase = false then trackPerformance s5 e else s5).precision = s5.precision := by
  split_ifs
  · exact trackPerformance_precision _ _
  · rfl

lemma updateCore_rate (s2 : Ctrl) (now : ℤ) (dt temp lo : ℚ)
    (hlast : s2.lastOutput = some lo)
    (hlo1 : s2.minTemp ≤ lo) (hlo2 : lo ≤ s2.maxTemp)
    (hprec : 0 < s2.precision) (hmaxc : 0 ≤ s2.maxOutputChange) :
    |(updateCore s2 now dt temp).2 - lo| ≤ s2.maxOutputChange + s2.precision / 2 := by
  simp only [updateCore]
  by_cases hL : s2.learningPhase = true ∧ ¬s2.learningComplete = true
  · rw [if_pos hL]
    set e := s2.targetTemp - temp with he
    set am := if s2.mode = "heat_cool" then (if 0 < e then "heat" else "cool") else s2.mode with ham
    set s3 := learn s2 now with hs3
    set s4 := (calculatePID s3 e dt am).1 with hs4
    set out := shapedOutput s4 (calculatePID s3 e dt am).2.adjustment e am with hout
    set s5 := { s4 with lastError := e, lastTemp := some temp, lastOutput := some out } with hs5
    set s6 := if s5.learningPhase = false then trackPerformance s5 e else s5 with hs6
    have h4last : s4.lastOutput = some lo := by
      rw [hs4, hs3]
      exact (learn_lastOutput s2 now).trans hlast
    have h4min : s4.minTemp = s2.minTemp := by
      rw [hs4, hs3]; exact learn_minTemp s2 now
    have h4max : s4.maxTemp = s2.maxTemp := by
      rw [hs4, hs3]; exact learn_maxTemp s2 now
    have h4prec : s4.precision = s2.precision := by
      rw [hs4, hs3]; exact learn_precision s2 now
    have h4maxc : s4.maxOutputChange = s2.maxOutputChange := by
      rw [hs4, hs3]; exact learn_maxOutputChange s2 now
    have hp6 : s6.precision = s4.precision := by
      rw [hs6, s6_precision s5 e, hs5]
    have hidem : roundToPrecision s6 out = out := by
      rw [roundToPrecision_congr out hp6, hout]
      unfold shapedOutput
      exact roundToPrecision_idem _ _
    rw [hidem, hout]
    have hclose := shapedOutput_close s4 ((calculatePID s3 e dt am).2.adjustment) e am lo
      h4last (h4min ▸ hlo1) (h4max ▸ hlo2) (h4prec ▸ hprec) (h4maxc ▸ hmaxc)
    rw [h4maxc, h4prec] at hclose
    exact hclose
  · rw [if_neg hL]
    set e := s2.targetTemp - temp with he
    set am := if s2.mode = "heat_cool" then (if 0 < e then "heat" else "cool") else s2.mode with ham
    set s4 := (calculatePID s2 e dt am).1 with hs4
    set out := shapedOutput s4 (calculatePID s2 e dt am).2.adjustment e am with hout
    set s5 := { s4 with lastError := e, lastTemp := some temp, lastOutput := some out } with hs5
    set s6 := if s5.learningPhase = false then trackPerformance s5 e else s5 with hs6
    have h4last : s4.lastOutput = some lo := by rw [hs4]; exact hlast
    have h4min : s4.minTemp = s2.minTemp := by rw [hs4]; rfl
    have h4max : s4.maxTemp = s2.maxTemp := by rw [hs4]; rfl
    have h4prec : s4.precision = s2.precision := by rw [hs4]; rfl
    have h4maxc : s4.maxOutputChange = s2.maxOutputChange := by rw [hs4]; rfl
    have hp6 : s6.precision = s4.precision := by
      rw [hs6, s6_precision s5 e, hs5]
    have hidem : roundToPrecision s6 out = out := by
      rw [roundToPrecision_congr out hp6, hout]
      unfold shapedOutput
      exact roundToPrecision_idem _ _
    rw [hidem, hout]
    have hclose := shapedOutput_close s4 ((calculatePID s2 e dt am).2.adjustment) e am lo
      h4last (h4min ▸ hlo1) (h4max ▸ hlo2) (h4prec ▸ hprec) (h4maxc ▸ hmaxc)
    rw [h4maxc, h4prec] at hclose
    exact hclose

lemma updateCore_inv (s2 : Ctrl) (now : ℤ) (dt temp : ℚ)
    (hmm : s2.minTemp ≤ s2.maxTemp) (hk1 : 1/1000 ≤ s2.Ki) (hk2 : s2.Ki ≤ 1/2) :
    CtrlInv (updateCore s2 now dt temp).1 := by
  simp only [updateCore]
  by_cases hL : s2.learningPhase = true ∧ ¬s2.learningComplete = true
  · rw [if_pos hL]
    set e := s2.targetTemp - temp with he
    set am := if s2.mode = "heat_cool" then (if 0 < e then "heat" else "cool") else s2.mode with ham
    set s3 := learn s2 now with hs3
    set s4 := (calculatePID s3 e dt am).1 with hs4
    set out := shapedOutput s4 (calculatePID s3 e dt am).2.adjustment e am with hout
    set s5 := { s4 with lastError := e, lastTemp := some temp, lastOutput := some out } with hs5
    set s6 := if s5.learningPhase = false then trackPerformance s5 e else s5 with hs6
    have h3k : 1/1000 ≤ s3.Ki ∧ s3.Ki ≤ 1/2 := by rw [hs3]; exact learn_Ki_bounds s2 now hk1 hk2
    have h3mm : s3.minTemp ≤ s3.maxTemp := by rw [hs3, learn_minTemp, learn_maxTemp]; exact hmm
    have hint := calculatePID_integral s3 e dt am h3k.1 h3mm
    rw [← hs4] at hint
    have h4k1 : s4.Ki = s3.Ki := by rw [hs4]; rfl
    have h4min : s4.minTemp = s3.minTemp := by rw [hs4]; rfl
    have h4max : s4.maxTemp = s3.maxTemp := by rw [hs4]; rfl
    have h5k : 1/1000 ≤ s5.Ki := by rw [hs5]; show 1/1000 ≤ s4.Ki; rw [h4k1]; exact h3k.1
    have h5k2 : s5.Ki ≤ 1/2 := by rw [hs5]; show s4.Ki ≤ 1/2; rw [h4k1]; exact h3k.2
    have h6int : s6.integral = s4.integral := by
      rw [hs6]; split_ifs
      · rw [trackPerformance_integral, hs5]
      · rw [hs5]
    have h6ki : s6.Ki = s3.Ki := by
      rw [hs6]; split_ifs
      · rw [trackPerformance_Ki s5 e h5k h5k2, hs5]; exact h4k1
      · rw [hs5]; exact h4k1
    have h6min : s6.minTemp = s3.minTemp := by
      rw [hs6]; split_ifs
      · rw [trackPerformance_minTemp, hs5]; exact h4min
      · rw [hs5]; exact h4min
    have h6max : s6.maxTemp = s3.maxTemp := by
      rw [hs6]; split_ifs
      · rw [trackPerformance_maxTemp, hs5]; exact h4max
      · rw [hs5]; exact h4max
    unfold CtrlInv
    refine ⟨?_, ?_, ?_, ?_, ?_⟩
    · rw [h6min, h6max]; exact h3mm
    · rw [h6ki]; exact h3k.1
    · rw [h6ki]; exact h3k.2
    · rw [h6int]; exact hint.1
    · rw [h6int, h6ki, h6min, h6max]
      exact hint.2
  · rw [if_neg hL]
    set e := s2.targetTemp - temp with he
    set am := if s2.mode = "heat_cool" then (if 0 < e then "heat" else "cool") else s2.mode with ham
    set s3 := s2 with hs3
    set s4 := (calculatePID s3 e dt am).1 with hs4
    set out := shapedOutput s4 (calculatePID s3 e dt am).2.adjustment e am with hout
    set s5 := { s4 with lastError := e, lastTemp := some temp, lastOutput := some out } with hs5
    set s6 := if s5.learningPhase = false then trackPerformance s5 e else s5 with hs6
    have h3k : 1/1000 ≤ s3.Ki ∧ s3.Ki ≤ 1/2 := by rw [hs3]; exact ⟨hk1, hk2⟩
    have h3mm : s3.minTemp ≤ s3.maxTemp := by rw [hs3]; exact hmm
    have hint := calculatePID_integral s3 e dt am h3k.1 h3mm
    rw [← hs4] at hint
    have h4k1 : s4.Ki = s3.Ki := by rw [hs4]; rfl
    have h4min : s4.minTemp = s3.minTemp := by rw [hs4]; rfl
    have h4max : s4.maxTemp = s3.maxTemp := by rw [hs4]; rfl
    have h5k : 1/1000 ≤ s5.Ki := by rw [hs5]; show 1/1000 ≤ s4.Ki; rw [h4k1]; exact h3k.1
    have h5k2 : s5.Ki ≤ 1/2 := by rw [hs5]; show s4.Ki ≤ 1/2; rw [h4k1]; exact h3k.2
    have h6int : s6.integral = s4.integral := by
      rw [hs6]; split_ifs
      · rw [trackPerformance_integral, hs5]
      · rw [hs5]
    have h6ki : s6.Ki = s3.Ki := by
      rw [hs6]; split_ifs
      · rw [trackPerformance_Ki s5 e h5k h5k2, hs5]; exact h4k1
      · rw [hs5]; exact h4k1
    have h6min : s6.minTemp = s3.minTemp := by
      rw [hs6]; split_ifs
      · rw [trackPerformance_minTemp, hs5]; exact h4min
      · rw [hs5]; exact h4min
    have h6max : s6.maxTemp = s3.maxTemp := by
      rw [hs6]; split_ifs
      · rw [trackPerformance_maxTemp, hs5]; exact h4max
      · rw [hs5]; exact h4max
    unfold CtrlInv
    refine ⟨?_, ?_, ?_, ?_, ?_⟩
    · rw [h6min, h6max]; exact h3mm
    · rw [h6ki]; exact h3k.1
    · rw [h6ki]; exact h3k.2
    · rw [h6int]; exact hint.1
    · rw [h6int, h6ki, h6min, h6max]
      exact hint.2

lemma updateCore_learning_done (s2 : Ctrl) (now : ℤ) (dt temp : ℚ)
    (hphase : s2.learningPhase = true) (hcomp : s2.learningComplete = false)
    (hdone : (learn s2 now).learningComplete = true ∧ (learn s2 now).learningPhase = false) :
    (updateCore s2 now dt temp).1.learningComplete = true ∧
    (updateCore s2 now dt temp).1.learningPhase = false := by
  have hL : s2.learningPhase = true ∧ ¬s2.learningComplete = true := by
    refine ⟨hphase, ?_⟩
    rw [hcomp]
    simp
  simp only [updateCore]
  rw [if_pos hL]
  set e := s2.targetTemp - temp with he
  set am := if s2.mode = "heat_cool" then (if 0 < e then "heat" else "cool") else s2.mode with ham
  set s3 := learn s2 now with hs3
  set s4 := (calculatePID s3 e dt am).1 with hs4
  set out := shapedOutput s4 (calculatePID s3 e dt am).2.adjustment e am with hout
  set s5 := { s4 with lastError := e, lastTemp := some temp, lastOutput := some out } with hs5
  set s6 := if s5.learningPhase = false then trackPerformance s5 e else s5 with hs6
  have h5c : s5.learningComplete = true := by
    rw [hs5]
    show s4.learningComplete = true
    rw [hs4, hs3]
    exact hdone.1
  have h5p : s5.learningPhase = false := by
    rw [hs5]
    show s4.learningPhase = false
    rw [hs4, hs3]
    exact hdone.2
  have h6c : s6.learningComplete = s5.learningComplete := by
    rw [hs6]; split_ifs
    all_goals exact (trackPerformance_learning s5 e).1
  have h6p : s6.learningPhase = s5.learningPhase := by
    rw [hs6]; split_ifs
    all_goals exact (trackPerformance_learning s5 e).2.1
  exact ⟨h6c.trans h5c, h6p.trans h5p⟩

/-! Branch characterisations of `update`. -/

lemma update_off (s : Ctrl) (now : ℤ) (t : TimeInfo) (temp : ℚ)
    (hoff : s.operatingMode = "off") :
    update s now t temp =
      (resolvedState s now t,
        roundToPrecision (resolvedState s now t)
          (roundToPrecision (resolvedState s now t) (resolvedState s now t).minTemp)) := by
  have h1 : (resolvedState s now t).operatingMode = "off" :=
    (resolvedState_operatingMode s now t).trans hoff
  simp only [update]
  rw [if_pos h1]

lemma update_idle (s : Ctrl) (now : ℤ) (t : TimeInfo) (temp : ℚ)
    (hoff : s.operatingMode ≠ "off")
    (hcase : (s.mode = "heat" ∧ resolvedError s now t temp < 0) ∨
      (s.mode = "cool" ∧ 0 < resolvedError s now t temp)) :
    update s now t temp =
      updateIdle (recordTemperature (resolvedState s now t) temp now) temp := by
  have h1 : ¬((resolvedState s now t).operatingMode = "off") := by
    rw [resolvedState_operatingMode]; exact hoff
  have hm : (recordTemperature (resolvedState s now t) temp now).mode = s.mode := by
    show (resolvedState s now t).mode = s.mode
    exact resolvedState_mode s now t
  have htt : (recordTemperature (resolvedState s now t) temp now).targetTemp - temp
      = resolvedError s now t temp := rfl
  simp only [update]
  rw [if_neg h1]
  rcases hcase with ⟨hmode, herr⟩ | ⟨hmode, herr⟩
  · rw [if_pos ⟨hm.trans hmode, htt ▸ herr⟩]
  · have hne : ¬((recordTemperature (resolvedState s now t) temp now).mode = "heat" ∧
        (recordTemperature (resolvedState s now t) temp now).targetTemp - temp < 0) := by
      rintro ⟨hh, -⟩
      rw [hm, hmode] at hh
      exact absurd hh (by decide)
    rw [if_neg hne, if_pos ⟨hm.trans hmode, htt ▸ herr⟩]

lemma update_pid (s : Ctrl) (now : ℤ) (t : TimeInfo) (temp : ℚ)
    (hoff : s.operatingMode ≠ "off")
    (hheat : ¬(s.mode = "heat" ∧ resolvedError s now t temp < 0))
    (hcool : ¬(s.mode = "cool" ∧ 0 < resolvedError s now t temp)) :
    update s now t temp =
      updateCore (recordTemperature (resolvedState s now t) temp now) now
        (updateDt s now) temp := by
  have h1 : ¬((resolvedState s now t).operatingMode = "off") := by
    rw [resolvedState_operatingMode]; exact hoff
  have hm : (recordTemperature (resolvedState s now t) temp now).mode = s.mode := by
    show (resolvedState s now t).mode = s.mode
    exact resolvedState_mode s now t
  have htt : (recordTemperature (resolvedState s now t) temp now).targetTemp - temp
      = resolvedError s now t temp := rfl
  have h2 : ¬((recordTemperature (resolvedState s now t) temp now).mode = "heat" ∧
      (recordTemperature (resolvedState s now t) temp now).targetTemp - temp < 0) := by
    rintro ⟨hh, he⟩
    exact hheat ⟨hm ▸ hh, htt ▸ he⟩
  have h3 : ¬((recordTemperature (resolvedState s now t) temp now).mode = "cool" ∧
      0 < (recordTemperature (resolvedState s now t) temp now).targetTemp - temp) := by
    rintro ⟨hh, he⟩
    exact hcool ⟨hm ▸ hh, htt ▸ he⟩
  simp only [update]
  rw [if_neg h1, if_neg h2, if_neg h3]

/-! Invariant preservation and anti-windup monotonicity. -/

lemma updateIdle_inv (s2 : Ctrl) (temp : ℚ)
    (hmm : s2.minTemp ≤ s2.maxTemp) (hk1 : 1/1000 ≤ s2.Ki) (hk2 : s2.Ki ≤ 1/2)
    (hi1 : 0 ≤ s2.integral) (hi2 : s2.integral ≤ (s2.maxTemp - s2.minTemp) / (2 * s2.Ki)) :
    CtrlInv (updateIdle s2 temp).1 := by
  unfold CtrlInv updateIdle
  refine ⟨hmm, hk1, hk2, le_max_left _ _, ?_⟩
  show max 0 (s2.integral - |s2.targetTemp - temp|) ≤ (s2.maxTemp - s2.minTemp) / (2 * s2.Ki)
  exact max_le (hi1.trans hi2) (by linarith [abs_nonneg (s2.targetTemp - temp)])

lemma ctrlInv_s2 (s : Ctrl) (now : ℤ) (t : TimeInfo) (temp : ℚ) (hinv : CtrlInv s) :
    CtrlInv (recordTemperature (resolvedState s now t) temp now) := by
  obtain ⟨h1, h2, h3, h4, h5⟩ := hinv
  refine ⟨?_, ?_, ?_, ?_, ?_⟩
  · show (resolvedState s now t).minTemp ≤ (resolvedState s now t).maxTemp
    rw [resolvedState_minTemp, resolvedState_maxTemp]; exact h1
  · show 1/1000 ≤ (resolvedState s now t).Ki
    rw [resolvedState_Ki]; exact h2
  · show (resolvedState s now t).Ki ≤ 1/2
    rw [resolvedState_Ki]; exact h3
  · show 0 ≤ (resolvedState s now t).integral
    rw [resolvedState_integral]; exact h4
  · show (resolvedState s now t).integral ≤
      ((resolvedState s now t).maxTemp - (resolvedState s now t).minTemp) /
        (2 * (resolvedState s now t).Ki)
    rw [resolvedState_integral, resolvedState_minTemp, resolvedState_maxTemp, resolvedState_Ki]
    exact h5

lemma update_preserves_inv (s : Ctrl) (now : ℤ) (t : TimeInfo) (temp : ℚ)
    (hinv : CtrlInv s) : CtrlInv (update s now t temp).1 := by
  obtain ⟨h1, h2, h3, h4, h5⟩ := ctrlInv_s2 s now t temp hinv
  by_cases hoff : s.operatingMode = "off"
  · rw [update_off s now t temp hoff]
    obtain ⟨g1, g2, g3, g4, g5⟩ := hinv
    refine ⟨?_, ?_, ?_, ?_, ?_⟩
    · show (resolvedState s now t).minTemp ≤ (resolvedState s now t).maxTemp
      rw [resolvedState_minTemp, resolvedState_maxTemp]; exact g1
    · show 1/1000 ≤ (resolvedState s now t).Ki
      rw [resolvedState_Ki]; exact g2
    · show (resolvedState s now t).Ki ≤ 1/2
      rw [resolvedState_Ki]; exact g3
    · show 0 ≤ (resolvedState s now t).integral
      rw [resolvedState_integral]; exact g4
    · show (resolvedState s now t).integral ≤
        ((resolvedState s now t).maxTemp - (resolvedState s now t).minTemp) /
          (2 * (resolvedState s now t).Ki)
      rw [resolvedState_integral, resolvedState_minTemp, resolvedState_maxTemp, resolvedState_Ki]
      exact g5
  · by_cases hheat : s.mode = "heat" ∧ resolvedError s now t temp < 0
    · rw [update_idle s now t temp hoff (Or.inl hheat)]
      exact updateIdle_inv _ _ h1 h2 h3 h4 h5
    · by_cases hcool : s.mode = "cool" ∧ 0 < resolvedError s now t temp
      · rw [update_idle s now t temp hoff (Or.inr hcool)]
        exact updateIdle_inv _ _ h1 h2 h3 h4 h5
      · rw [update_pid s now t temp hoff hheat hcool]
        exact updateCore_inv _ now (updateDt s now) temp h1 h2 h3

lemma heat_overshoot_step (s : Ctrl) (now : ℤ) (t : TimeInfo) (temp : ℚ)
    (hmode : s.mode = "heat") (herr : resolvedError s now t temp < 0)
    (hi : 0 ≤ s.integral) :
    (update s now t temp).1.integral ≤ s.integral ∧
    0 ≤ (update s now t temp).1.integral ∧
    (update s now t temp).1.mode = s.mode := by
  by_cases hoff : s.operatingMode = "off"
  · rw [update_off s now t temp hoff]
    refine ⟨?_, ?_, ?_⟩
    · show (resolvedState s now t).integral ≤ s.integral
      rw [resolvedState_integral]
    · show 0 ≤ (resolvedState s now t).integral
      rw [resolvedState_integral]; exact hi
    · show (resolvedState s now t).mode = s.mode
      exact resolvedState_mode s now t
  · rw [update_idle s now t temp hoff (Or.inl ⟨hmode, herr⟩)]
    have h2i : (recordTemperature (resolvedState s now t) temp now).integral = s.integral := by
      show (resolvedState s now t).integral = s.integral
      exact resolvedState_integral s now t
    have h2m : (recordTemperature (resolvedState s now t) temp now).mode = s.mode := by
      show (resolvedState s now t).mode = s.mode
      exact resolvedState_mode s now t
    unfold updateIdle
    refine ⟨?_, le_max_left _ _, h2m⟩
    show max 0 ((recordTemperature (resolvedState s now t) temp now).integral -
        |(recordTemperature (resolvedState s now t) temp now).targetTemp - temp|) ≤ s.integral
    rw [h2i]
    refine max_le hi ?_
    have := abs_nonneg ((recordTemperature (resolvedState s now t) temp now).targetTemp - temp)
    linarith

lemma overshoot_mono (s : Ctrl) (steps : List (ℤ × TimeInfo × ℚ))
    (hmode : s.mode = "heat") (hover : overshootRun s steps) (hi : 0 ≤ s.integral) :
    (updateRun s steps).integral ≤ s.integral := by
  induction steps generalizing s with
  | nil => exact le_rfl
  | cons step rest ih =>
    obtain ⟨n, t, temp⟩ := step
    obtain ⟨herr, hrest⟩ := hover
    have hstep := heat_overshoot_step s n t temp hmode herr hi
    calc (updateRun s ((n, t, temp) :: rest)).integral
        = (updateRun (update s n t temp).1 rest).integral := rfl
      _ ≤ (update s n t temp).1.integral := ih _ (hstep.2.2.trans hmode) hrest hstep.2.1
      _ ≤ s.integral := hstep.1

/-! Claim theorems. -/

/-- C7: for every rational `x` and every positive precision,
`roundToPrecision(x)` returns an integer multiple of the precision whose
distance from `x` is at most half a precision step. -/
theorem c7_roundToPrecision_correct (s : Ctrl) (x : ℚ) (hp : 0 < s.precision) :
    (∃ n : ℤ, roundToPrecision s x = (n : ℚ) * s.precision) ∧
    |roundToPrecision s x - x| ≤ s.precision / 2 :=
  ⟨⟨jsRound (x / s.precision), rfl⟩, abs_roundToPrecision_sub_le s x hp⟩

/-- Witness for C7 at the default half-degree precision and `x = 3.3`. -/
theorem c7_roundToPrecision_correct_witness :
    (0 : ℚ) < ctorDefaults.precision ∧
    ((∃ n : ℤ, roundToPrecision ctorDefaults (33/10) = (n : ℚ) * ctorDefaults.precision) ∧
      |roundToPrecision ctorDefaults (33/10) - 33/10| ≤ ctorDefaults.precision / 2) :=
  ⟨by norm_num [ctorDefaults], c7_roundToPrecision_correct ctorDefaults (33/10)
    (by norm_num [ctorDefaults])⟩

/-- C9: invalid setter inputs are ignored silently with no state change:
a non-numeric/NaN manual target (modelled as `none`), an operating-mode
string outside {manual, schedule, off}, and a thermal-mode string outside
the accepted names (including the legacy aliases) all leave the
controller untouched, while a valid manual-target call resets the
integral accumulator to zero. -/
theorem c9_setters_ignore_invalid (s : Ctrl) (m1 m2 : String) (v : ℚ)
    (h1 : m1 ≠ "manual" ∧ m1 ≠ "schedule" ∧ m1 ≠ "off")
    (h2 : m2 ≠ "heat" ∧ m2 ≠ "cool" ∧ m2 ≠ "heat_cool" ∧
      m2 ≠ "heating" ∧ m2 ≠ "cooling" ∧ m2 ≠ "auto") :
    setSetpoint s none = s ∧ setOperatingMode s m1 = s ∧ setMode s m2 = s ∧
    (setSetpoint s (some v)).integral = 0 := by
  refine ⟨rfl, ?_, ?_, rfl⟩
  · unfold setOperatingMode
    rw [if_neg]
    rintro (h | h | h)
    · exact h1.1 h
    · exact h1.2.1 h
    · exact h1.2.2 h
  · simp only [setMode]
    rw [if_neg h2.2.2.2.1, if_neg h2.2.2.2.2.1, if_neg h2.2.2.2.2.2]
    rw [if_neg]
    rintro (h | h | h)
    · exact h2.1 h
    · exact h2.2.1 h
    · exact h2.2.2.1 h

/-- Witness for C9 with the string `"banana"` and the target `22`. -/
theorem c9_setters_ignore_invalid_witness :
    (("banana" : String) ≠ "manual" ∧ ("banana" : String) ≠ "schedule" ∧
      ("banana" : String) ≠ "off") ∧
    (("banana" : String) ≠ "heat" ∧ ("banana" : String) ≠ "cool" ∧
      ("banana" : String) ≠ "heat_cool" ∧ ("banana" : String) ≠ "heating" ∧
      ("banana" : String) ≠ "cooling" ∧ ("banana" : String) ≠ "auto") ∧
    (setSetpoint ctorDefaults none = ctorDefaults ∧
      setOperatingMode ctorDefaults "banana" = ctorDefaults ∧
      setMode ctorDefaults "banana" = ctorDefaults ∧
      (setSetpoint ctorDefaults (some 22)).integral = 0) :=
  ⟨by decide, by decide,
    c9_setters_ignore_invalid ctorDefaults "banana" "banana" 22 (by decide) (by decide)⟩

/-- C1: with boost active (flag set, stored temperature present, current
instant not past the expiry), the effective-target resolution run at the
top of each cycle (`checkBoostExpiry` then `calculateEffectiveTarget`)
yields the boost temperature clamped to `[minTemp, maxTemp]`, for every
away flag, away temperature, schedule and manual base target. -/
theorem c1_boost_priority (s : Ctrl) (now : ℤ) (t : TimeInfo) (b : ℚ)
    (hb : s.boostActive = true) (htemp : s.boostTemp = some b)
    (hexp : s.boostEndTime = none ∨ ∃ e : ℤ, s.boostEndTime = some e ∧ now ≤ e) :
    (calculateEffectiveTarget t (checkBoostExpiry now s)).targetTemp =
      clampQ b s.minTemp s.maxTemp := by
  have hkeep : checkBoostExpiry now s = s := by
    unfold checkBoostExpiry
    rcases hexp with h | ⟨e, he, hle⟩
    · rw [h]
    · rw [he]
      dsimp only
      rw [if_neg]
      rintro ⟨-, hgt⟩
      exact absurd hgt (not_lt.mpr hle)
  rw [hkeep]
  simp [calculateEffectiveTarget, htemp, hb]

/-- Witness for C1: an unexpired boost at 24 degrees with away mode on
and a schedule configured. -/
theorem c1_boost_priority_witness :
    boostedCtrl.boostActive = true ∧ boostedCtrl.boostTemp = some 24 ∧
    (boostedCtrl.boostEndTime = none ∨
      ∃ e : ℤ, boostedCtrl.boostEndTime = some e ∧ (500 : ℤ) ≤ e) ∧
    (calculateEffectiveTarget someTime (checkBoostExpiry 500 boostedCtrl)).targetTemp =
      clampQ 24 boostedCtrl.minTemp boostedCtrl.maxTemp :=
  ⟨rfl, rfl, Or.inr ⟨1000, rfl, by norm_num⟩,
    c1_boost_priority boostedCtrl 500 someTime 24 rfl rfl (Or.inr ⟨1000, rfl, by norm_num⟩)⟩

/-- C5 (code bug): the cooling latch's proactive branch tests the trend
label `"warming"`, but `detectTrend` only ever produces `"unknown"`,
`"heating"`, `"cooling"` or `"stable"`, so the branch can never fire.  At
a failing input (window rising by a degree, so the label is `"heating"`;
setpoint one full step below target minus precision; error negative but
inside the hysteresis band) the latch holds its previous inactive state
instead of proactively turning on. -/
theorem c5_cooling_proactive_dead :
    (∀ w : List ℚ, detectTrend w ≠ "warming") ∧
    detectTrend [20, 41/2, 21] = "heating" ∧
    latchStep "manual" "cool" (-(1/10)) (1/5) 20 21 (1/2)
        (detectTrend [20, 41/2, 21]) ⟨false, false⟩ = (⟨false, false⟩, false) := by
  refine ⟨?_, by norm_num [detectTrend], ?_⟩
  case refine_2 =>
    norm_num [latchStep, detectTrend]
    decide
  intro w
  unfold detectTrend
  split_ifs <;> simp

/-- C6: for a schedule whose Monday list has slots only at 06:00 and
22:00 (in slot order) and whose Tuesday list is empty or has no slot at
or before 02:00, the scheduled-temperature lookup at Tuesday 02:00
returns Monday's 22:00 temperature. -/
theorem c6_schedule_carry_over (s : Ctrl) (sch : Schedule) (t1 t2 : ℚ)
    (hs : s.schedule = some sch)
    (hm : sch.monday = [⟨6, 0, t1⟩, ⟨22, 0, t2⟩])
    (ht : ∀ sl ∈ sch.tuesday, 120 < sl.minutes) :
    getScheduledTemp ⟨2, 2, 0⟩ s = t2 := by
  have hday : sch.day 2 = sch.tuesday := rfl
  have hyest : sch.day ((2 + 6) % 7) = sch.monday := rfl
  simp only [getScheduledTemp, hs]
  cases htu : sch.tuesday with
  | nil =>
    rw [hday, htu, hyest, hm]
    rfl
  | cons hd tl =>
    rw [hday, htu, hyest, hm]
    have hscan : (hd :: tl).foldl
        (fun acc sl => if sl.minutes ≤ 2 * 60 + 0 then some sl else acc) none = none := by
      refine scanSlots_none _ _ _ ?_
      intro sl hsl
      have := ht sl (htu ▸ hsl)
      simpa using this
    have hne : (hd :: tl).isEmpty = false := rfl
    rw [hne]
    simp only [Bool.false_eq_true, if_false]
    rw [hscan]
    rfl

/-- Witness for C6 at the concrete three-slot schedule. -/
theorem c6_schedule_carry_over_witness :
    ({ ctorDefaults with schedule := some mondaySchedule } : Ctrl).schedule =
        some mondaySchedule ∧
    mondaySchedule.monday = [⟨6, 0, 19⟩, ⟨22, 0, 17⟩] ∧
    (∀ sl ∈ mondaySchedule.tuesday, 120 < sl.minutes) ∧
    getScheduledTemp ⟨2, 2, 0⟩ { ctorDefaults with schedule := some mondaySchedule } = 17 :=
  ⟨rfl, rfl, by decide,
    c6_schedule_carry_over _ mondaySchedule 19 17 rfl rfl (by decide)⟩

/-- C10 (counterexample): an off-mode update also changes the
last-update instant, so the claim that only boost expiry and the
effective target may change is false as stated. -/
theorem c10_off_counterexample :
    offCtrl.operatingMode = "off" ∧
    (update offCtrl 99 someTime 20).1.lastUpdateTime ≠ offCtrl.lastUpdateTime := by
  constructor
  · rfl
  · rw [update_off offCtrl 99 someTime 20 rfl]
    rw [resolvedState_lastUpdateTime]
    decide

/-- C10 (amended): in `off` operating mode, `update` emits the minimum
temperature rounded to precision and leaves the temperature history,
trend window, performance history, integral accumulator, last error,
last temperature, last output, gains, learning state, modes, schedule
and away state unchanged; only the boost fields, the effective target
and the last-update instant (set to the current clock reading) may
change. -/
theorem c10_off_frame (s : Ctrl) (now : ℤ) (t : TimeInfo) (temp : ℚ)
    (hoff : s.operatingMode = "off") :
    (update s now t temp).2 = roundToPrecision s s.minTemp ∧
    (update s now t temp).1.temperatureHistory = s.temperatureHistory ∧
    (update s now t temp).1.trendWindow = s.trendWindow ∧
    (update s now t temp).1.performanceHistory = s.performanceHistory ∧
    (update s now t temp).1.integral = s.integral ∧
    (update s now t temp).1.lastError = s.lastError ∧
    (update s now t temp).1.lastTemp = s.lastTemp ∧
    (update s now t temp).1.lastOutput = s.lastOutput ∧
    (update s now t temp).1.lastUpdateTime = some now ∧
    (update s now t temp).1.mode = s.mode ∧
    (update s now t temp).1.operatingMode = s.operatingMode ∧
    (update s now t temp).1.schedule = s.schedule ∧
    (update s now t temp).1.Kp = s.Kp ∧
    (update s now t temp).1.Ki = s.Ki ∧
    (update s now t temp).1.Kd = s.Kd ∧
    (update s now t temp).1.learningPhase = s.learningPhase ∧
    (update s now t temp).1.learningComplete = s.learningComplete ∧
    (update s now t temp).1.learningStartTime = s.learningStartTime ∧
    (update s now t temp).1.awayMode = s.awayMode ∧
    (update s now t temp).1.awayTemp = s.awayTemp ∧
    (update s now t temp).1.minTemp = s.minTemp ∧
    (update s now t temp).1.maxTemp = s.maxTemp ∧
    (update s now t temp).1.baseTargetTemp = s.baseTargetTemp ∧
    (update s now t temp).1.hysteresis = s.hysteresis ∧
    (update s now t temp).1.precision = s.precision ∧
    (update s now t temp).1.maxOutputChange = s.maxOutputChange := by
  rw [update_off s now t temp hoff]
  have hpre := resolvedState_precision s now t
  have hmin := resolvedState_minTemp s now t
  refine ⟨?_, resolvedState_temperatureHistory s now t, resolvedState_trendWindow s now t,
    resolvedState_performanceHistory s now t, resolvedState_integral s now t,
    resolvedState_lastError s now t, resolvedState_lastTemp s now t,
    resolvedState_lastOutput s now t, resolvedState_lastUpdateTime s now t,
    resolvedState_mode s now t, resolvedState_operatingMode s now t,
    resolvedState_schedule s now t, resolvedState_Kp s now t, resolvedState_Ki s now t,
    resolvedState_Kd s now t, resolvedState_learningPhase s now t,
    resolvedState_learningComplete s now t, resolvedState_learningStartTime s now t,
    resolvedState_awayMode s now t, resolvedState_awayTemp s now t,
    resolvedState_minTemp s now t, resolvedState_maxTemp s now t,
    resolvedState_baseTargetTemp s now t, resolvedState_hysteresis s now t,
    resolvedState_precision s now t, resolvedState_maxOutputChange s now t⟩
  show roundToPrecision (resolvedState s now t)
      (roundToPrecision (resolvedState s now t) (resolvedState s now t).minTemp) =
    roundToPrecision s s.minTemp
  rw [show roundToPrecision (resolvedState s now t) (resolvedState s now t).minTemp =
      roundToPrecision s s.minTemp from by rw [roundToPrecision_congr _ hpre, hmin]]
  rw [roundToPrecision_congr _ hpre]
  exact roundToPrecision_idem s _

/-- Witness for C10 (amended) at the concrete off-mode controller. -/
theorem c10_off_frame_witness :
    offCtrl.operatingMode = "off" ∧
    ((update offCtrl 99 someTime 20).2 = roundToPrecision offCtrl offCtrl.minTemp ∧
      (update offCtrl 99 someTime 20).1.lastUpdateTime = some 99) :=
  ⟨rfl, (c10_off_frame offCtrl 99 someTime 20 rfl).1,
    (c10_off_frame offCtrl 99 someTime 20 rfl).2.2.2.2.2.2.2.2.1⟩

/-- C8 (counterexample): `adaptPIDParameters` raises the
parameters-changed flag even when the tuned gains are identical to the
previous ones, refuting "raised if and only if the gains actually
differ": a controller whose gains already equal the Cohen-Coon result
for a 1800 s time constant and 900 s dead time gets the flag raised with
no gain change. -/
theorem c8_flag_counterexample :
    preTunedCtrl.parametersChanged = false ∧
    (adaptPIDParameters preTunedCtrl ⟨1800, 900⟩).Kp = preTunedCtrl.Kp ∧
    (adaptPIDParameters preTunedCtrl ⟨1800, 900⟩).Ki = preTunedCtrl.Ki ∧
    (adaptPIDParameters preTunedCtrl ⟨1800, 900⟩).Kd = preTunedCtrl.Kd ∧
    (adaptPIDParameters preTunedCtrl ⟨1800, 900⟩).parametersChanged = true := by
  refine ⟨rfl, ?_, ?_, ?_, ?_⟩ <;>
    norm_num [adaptPIDParameters, cohenCoonKp, cohenCoonKi, cohenCoonKd, clampQ,
      min_def, max_def, preTunedCtrl, ctorDefaults]

/-- C8 (amended): the continuous-adaptation step raises the flag exactly
when Kp or Kd actually changed; the tuning step raises it
unconditionally whenever it applies (both estimated characteristics
strictly positive); reading the flag returns its current value and
clears it, so a second read returns false. -/
theorem c8_flag_semantics (s : Ctrl) (c : ThermalChar)
    (h0 : s.parametersChanged = false)
    (htc : 0 < c.timeConstant) (hdt : 0 < c.deadTime) :
    ((continuousAdaptation s).parametersChanged = true ↔
      ((continuousAdaptation s).Kp ≠ s.Kp ∨ (continuousAdaptation s).Kd ≠ s.Kd)) ∧
    (adaptPIDParameters s c).parametersChanged = true ∧
    (hasParametersChanged s).1 = s.parametersChanged ∧
    (hasParametersChanged (hasParametersChanged s).2).1 = false := by
  refine ⟨?_, ?_, rfl, rfl⟩
  · unfold continuousAdaptation
    split_ifs with hlen
    · simp [h0]
    · set sg := reclampGains (adaptGains s
        (recentMean (s.performanceHistory.drop (s.performanceHistory.length - s.adaptationInterval)))
        (recentVariance (s.performanceHistory.drop (s.performanceHistory.length - s.adaptationInterval))))
        with hsg
      unfold flagIfChanged
      split_ifs with hch
      · exact iff_of_true rfl hch
      · push_neg at hch
        have hf : sg.parametersChanged = false := by
          rw [hsg]
          show (adaptGains s _ _).parametersChanged = false
          rw [adaptGains_parametersChanged]
          exact h0
        exact iff_of_false (by simp [hf]) (by simp [hch.1, hch.2])
  · have hng : ¬(c.timeConstant ≤ 0 ∨ c.deadTime ≤ 0) := by
      rintro (h | h)
      · exact absurd htc (not_lt.mpr h)
      · exact absurd hdt (not_lt.mpr h)
    unfold adaptPIDParameters
    rw [if_neg hng]

/-- Witness for C8 (amended) at a controller sitting exactly on an
adaptation boundary. -/
theorem c8_flag_semantics_witness :
    adaptBoundaryCtrl.parametersChanged = false ∧
    (0 : ℚ) < (⟨1800, 900⟩ : ThermalChar).timeConstant ∧
    (0 : ℚ) < (⟨1800, 900⟩ : ThermalChar).deadTime ∧
    (((continuousAdaptation adaptBoundaryCtrl).parametersChanged = true ↔
        ((continuousAdaptation adaptBoundaryCtrl).Kp ≠ adaptBoundaryCtrl.Kp ∨
          (continuousAdaptation adaptBoundaryCtrl).Kd ≠ adaptBoundaryCtrl.Kd)) ∧
      (adaptPIDParameters adaptBoundaryCtrl ⟨1800, 900⟩).parametersChanged = true ∧
      (hasParametersChanged adaptBoundaryCtrl).1 = adaptBoundaryCtrl.parametersChanged ∧
      (hasParametersChanged (hasParametersChanged adaptBoundaryCtrl).2).1 = false) :=
  ⟨rfl, by norm_num, by norm_num,
    c8_flag_semantics adaptBoundaryCtrl ⟨1800, 900⟩ rfl (by norm_num) (by norm_num)⟩

set_option maxHeartbeats 2000000 in
/-- C4 (counterexample): with learning one hour old but only two history
samples (fewer than the thirty required), the next processed sample does
not transition to tuned — `learn` returns before its timeout check —
refuting the claim for the under-30-samples case. -/
theorem c4_timeout_counterexample :
    sparseLearner.learningStartTime = some 0 ∧
    (3600000 : ℤ) < 4000000 - 0 ∧
    sparseLearner.learningPhase = true ∧
    sparseLearner.learningComplete = false ∧
    sparseLearner.temperatureHistory.length < sparseLearner.samplesNeeded ∧
    (update sparseLearner 4000000 someTime 18).1.learningComplete = false ∧
    (update sparseLearner 4000000 someTime 18).1.learningPhase = true := by
  refine ⟨rfl, by norm_num, rfl, rfl, by norm_num [sparseLearner, ctorDefaults], ?_, ?_⟩ <;>
  · simp [update, updateDt, resolvedState, calculateEffectiveTarget, checkBoostExpiry,
    getScheduledTemp, recordTemperature, boundedPush, updateIdle, updateCore, learn,
    learnStart, learnEstimate, completeLearning, estimateThermalCharacteristics,
    maxDeviation, firstReach, adaptPIDParameters, cohenCoonKp, cohenCoonKi, cohenCoonKd,
    calculatePID, shapedOutput, shapeRaw, rateLimited, trackPerformance, trackAdapt,
    continuousAdaptation, recentMean, recentVariance, adaptGains, reclampGains,
    flagIfChanged, roundToPrecision, jsRound, jsSign, clampQ, detectTrend,
    Slot.minutes, Schedule.day, min_def, max_def, sparseLearner, ctorDefaults, someTime]
    norm_num

/-- C4 (amended): if learning has started, more than one hour has
elapsed, the sample is processed through the PID path (operating mode not
off and neither idle bypass taken) and, after the reading is recorded, at
least `samplesNeeded` history samples are present, then that sample
transitions the learning state to tuned regardless of whether the
thermal-characteristic estimation succeeded. -/
theorem c4_learning_timeout (s : Ctrl) (now : ℤ) (t : TimeInfo) (temp : ℚ) (t0 : ℤ)
    (hstart : s.learningStartTime = some t0)
    (helapsed : 3600000 < now - t0)
    (hphase : s.learningPhase = true)
    (hcomp : s.learningComplete = false)
    (hoff : s.operatingMode ≠ "off")
    (hheat : ¬(s.mode = "heat" ∧ resolvedError s now t temp < 0))
    (hcool : ¬(s.mode = "cool" ∧ 0 < resolvedError s now t temp))
    (hsamples : (recordTemperature (resolvedState s now t) temp now).samplesNeeded ≤
      (recordTemperature (resolvedState s now t) temp now).temperatureHistory.length) :
    (update s now t temp).1.learningComplete = true ∧
    (update s now t temp).1.learningPhase = false := by
  rw [update_pid s now t temp hoff hheat hcool]
  set s2 := recordTemperature (resolvedState s now t) temp now with hs2
  have h2phase : s2.learningPhase = true := by
    rw [hs2]
    show (resolvedState s now t).learningPhase = true
    rw [resolvedState_learningPhase]
    exact hphase
  have h2comp : s2.learningComplete = false := by
    rw [hs2]
    show (resolvedState s now t).learningComplete = false
    rw [resolvedState_learningComplete]
    exact hcomp
  have h2start : s2.learningStartTime = some t0 := by
    rw [hs2]
    show (resolvedState s now t).learningStartTime = some t0
    rw [resolvedState_learningStartTime]
    exact hstart
  have hdone := learn_completes s2 now t0 h2start helapsed hsamples
  exact updateCore_learning_done s2 now (updateDt s now) temp h2phase h2comp hdone

/-- Witness for C4 (amended) at a restored two-sample learning state one
hour past its start. -/
theorem c4_learning_timeout_witness :
    quickLearner.learningStartTime = some 0 ∧
    (3600000 : ℤ) < 3700000 - 0 ∧
    quickLearner.learningPhase = true ∧
    quickLearner.learningComplete = false ∧
    quickLearner.operatingMode ≠ "off" ∧
    ¬(quickLearner.mode = "heat" ∧ resolvedError quickLearner 3700000 someTime 20 < 0) ∧
    ¬(quickLearner.mode = "cool" ∧ 0 < resolvedError quickLearner 3700000 someTime 20) ∧
    (recordTemperature (resolvedState quickLearner 3700000 someTime) 20 3700000).samplesNeeded ≤
      (recordTemperature (resolvedState quickLearner 3700000 someTime) 20
        3700000).temperatureHistory.length ∧
    ((update quickLearner 3700000 someTime 20).1.learningComplete = true ∧
      (update quickLearner 3700000 someTime 20).1.learningPhase = false) := by
  have hheat : ¬(quickLearner.mode = "heat" ∧
      resolvedError quickLearner 3700000 someTime 20 < 0) := by
    norm_num [resolvedError, resolvedState, calculateEffectiveTarget, checkBoostExpiry,
      getScheduledTemp, clampQ, min_def, max_def, quickLearner, ctorDefaults, someTime]
  have hcool : ¬(quickLearner.mode = "cool" ∧
      0 < resolvedError quickLearner 3700000 someTime 20) := by
    simp [quickLearner, ctorDefaults]
  have hsamples : (recordTemperature (resolvedState quickLearner 3700000 someTime) 20
        3700000).samplesNeeded ≤
      (recordTemperature (resolvedState quickLearner 3700000 someTime) 20
        3700000).temperatureHistory.length := by
    norm_num [recordTemperature, boundedPush, resolvedState, calculateEffectiveTarget,
      checkBoostExpiry, getScheduledTemp, clampQ, min_def, max_def, quickLearner,
      ctorDefaults, someTime]
  exact ⟨rfl, by norm_num, rfl, rfl, by decide, hheat, hcool, hsamples,
    c4_learning_timeout quickLearner 3700000 someTime 20 0 rfl (by norm_num) rfl rfl
      (by decide) hheat hcool hsamples⟩

set_option maxHeartbeats 8000000 in
/-- C3 (counterexample): two successive updates on a fresh learning-off
controller — a cold reading, then a reading past the target, which takes
the idle bypass — emit setpoints 25 and then 21, a jump of 4 degrees,
far beyond `maxOutputChange` plus one precision step; the rate limit
does not bind across the idle branch. -/
theorem c3_rate_limit_counterexample :
    tunedCtrl.maxOutputChange = 1/2 ∧ tunedCtrl.precision = 1/2 ∧
    (update tunedCtrl 0 someTime 18).2 = 25 ∧
    (update (update tunedCtrl 0 someTime 18).1 60000 someTime 22).2 = 21 ∧
    ¬(|(update (update tunedCtrl 0 someTime 18).1 60000 someTime 22).2 -
        (update tunedCtrl 0 someTime 18).2| ≤
      tunedCtrl.maxOutputChange + tunedCtrl.precision) := by
  have h1 : (update tunedCtrl 0 someTime 18).2 = 25 := by
    simp [update, updateDt, resolvedState, calculateEffectiveTarget, checkBoostExpiry,
    getScheduledTemp, recordTemperature, boundedPush, updateIdle, updateCore, learn,
    learnStart, learnEstimate, completeLearning, estimateThermalCharacteristics,
    maxDeviation, firstReach, adaptPIDParameters, cohenCoonKp, cohenCoonKi, cohenCoonKd,
    calculatePID, shapedOutput, shapeRaw, rateLimited, trackPerformance, trackAdapt,
    continuousAdaptation, recentMean, recentVariance, adaptGains, reclampGains,
    flagIfChanged, roundToPrecision, jsRound, jsSign, clampQ, detectTrend,
    Slot.minutes, Schedule.day, min_def, max_def, tunedCtrl, ctorDefaults, someTime]
    norm_num
  have h2 : (update (update tunedCtrl 0 someTime 18).1 60000 someTime 22).2 = 21 := by
    simp [update, updateDt, resolvedState, calculateEffectiveTarget, checkBoostExpiry,
    getScheduledTemp, recordTemperature, boundedPush, updateIdle, updateCore, learn,
    learnStart, learnEstimate, completeLearning, estimateThermalCharacteristics,
    maxDeviation, firstReach, adaptPIDParameters, cohenCoonKp, cohenCoonKi, cohenCoonKd,
    calculatePID, shapedOutput, shapeRaw, rateLimited, trackPerformance, trackAdapt,
    continuousAdaptation, recentMean, recentVariance, adaptGains, reclampGains,
    flagIfChanged, roundToPrecision, jsRound, jsSign, clampQ, detectTrend,
    Slot.minutes, Schedule.day, min_def, max_def, tunedCtrl, ctorDefaults, someTime]
    all_goals norm_num
    all_goals simp [update, updateDt, resolvedState, calculateEffectiveTarget, checkBoostExpiry,
    getScheduledTemp, recordTemperature, boundedPush, updateIdle, updateCore, learn,
    learnStart, learnEstimate, completeLearning, estimateThermalCharacteristics,
    maxDeviation, firstReach, adaptPIDParameters, cohenCoonKp, cohenCoonKi, cohenCoonKd,
    calculatePID, shapedOutput, shapeRaw, rateLimited, trackPerformance, trackAdapt,
    continuousAdaptation, recentMean, recentVariance, adaptGains, reclampGains,
    flagIfChanged, roundToPrecision, jsRound, jsSign, clampQ, detectTrend,
    Slot.minutes, Schedule.day, min_def, max_def, tunedCtrl, ctorDefaults, someTime]
  refine ⟨rfl, rfl, h1, h2, ?_⟩
  rw [h1, h2]
  norm_num [tunedCtrl, ctorDefaults]

/-- C3 (amended): for an update processed through the PID path (operating
mode not off, neither idle bypass taken), with the previous emitted
setpoint recorded in `lastOutput` and lying inside the configured
bounds, a positive precision and a non-negative `maxOutputChange`, the
newly emitted setpoint differs from the previous one by at most
`maxOutputChange` plus half a precision step (the final rounding's
tolerance). -/
theorem c3_rate_limit_pid_path (s : Ctrl) (now : ℤ) (t : TimeInfo) (temp lo : ℚ)
    (hlast : s.lastOutput = some lo)
    (hlo1 : s.minTemp ≤ lo) (hlo2 : lo ≤ s.maxTemp)
    (hprec : 0 < s.precision) (hmaxc : 0 ≤ s.maxOutputChange)
    (hoff : s.operatingMode ≠ "off")
    (hheat : ¬(s.mode = "heat" ∧ resolvedError s now t temp < 0))
    (hcool : ¬(s.mode = "cool" ∧ 0 < resolvedError s now t temp)) :
    |(update s now t temp).2 - lo| ≤ s.maxOutputChange + s.precision / 2 := by
  rw [update_pid s now t temp hoff hheat hcool]
  set s2 := recordTemperature (resolvedState s now t) temp now with hs2
  have h2last : s2.lastOutput = some lo := by
    rw [hs2]
    show (resolvedState s now t).lastOutput = some lo
    rw [resolvedState_lastOutput]
    exact hlast
  have h2min : s2.minTemp = s.minTemp := by
    rw [hs2]
    show (resolvedState s now t).minTemp = s.minTemp
    exact resolvedState_minTemp s now t
  have h2max : s2.maxTemp = s.maxTemp := by
    rw [hs2]
    show (resolvedState s now t).maxTemp = s.maxTemp
    exact resolvedState_maxTemp s now t
  have h2prec : s2.precision = s.precision := by
    rw [hs2]
    show (resolvedState s now t).precision = s.precision
    exact resolvedState_precision s now t
  have h2maxc : s2.maxOutputChange = s.maxOutputChange := by
    rw [hs2]
    show (resolvedState s now t).maxOutputChange = s.maxOutputChange
    exact resolvedState_maxOutputChange s now t
  have hb := updateCore_rate s2 now (updateDt s now) temp lo h2last
    (h2min ▸ hlo1) (h2max ▸ hlo2) (h2prec ▸ hprec) (h2maxc ▸ hmaxc)
  rw [h2maxc, h2prec] at hb
  exact hb

/-- Witness for C3 (amended): a PID-path update starting from a recorded
setpoint of 21 stays within half a degree plus rounding. -/
theorem c3_rate_limit_pid_path_witness :
    ({ tunedCtrl with lastOutput := some 21 } : Ctrl).lastOutput = some 21 ∧
    ({ tunedCtrl with lastOutput := some 21 } : Ctrl).minTemp ≤ 21 ∧
    (21 : ℚ) ≤ ({ tunedCtrl with lastOutput := some 21 } : Ctrl).maxTemp ∧
    (0 : ℚ) < ({ tunedCtrl with lastOutput := some 21 } : Ctrl).precision ∧
    (0 : ℚ) ≤ ({ tunedCtrl with lastOutput := some 21 } : Ctrl).maxOutputChange ∧
    ({ tunedCtrl with lastOutput := some 21 } : Ctrl).operatingMode ≠ "off" ∧
    ¬(({ tunedCtrl with lastOutput := some 21 } : Ctrl).mode = "heat" ∧
      resolvedError { tunedCtrl with lastOutput := some 21 } 0 someTime 18 < 0) ∧
    ¬(({ tunedCtrl with lastOutput := some 21 } : Ctrl).mode = "cool" ∧
      0 < resolvedError { tunedCtrl with lastOutput := some 21 } 0 someTime 18) ∧
    |(update { tunedCtrl with lastOutput := some 21 } 0 someTime 18).2 - 21| ≤
      ({ tunedCtrl with lastOutput := some 21 } : Ctrl).maxOutputChange +
        ({ tunedCtrl with lastOutput := some 21 } : Ctrl).precision / 2 := by
  have hheat : ¬(({ tunedCtrl with lastOutput := some 21 } : Ctrl).mode = "heat" ∧
      resolvedError { tunedCtrl with lastOutput := some 21 } 0 someTime 18 < 0) := by
    norm_num [resolvedError, resolvedState, calculateEffectiveTarget, checkBoostExpiry,
      getScheduledTemp, clampQ, min_def, max_def, tunedCtrl, ctorDefaults, someTime]
  have hcool : ¬(({ tunedCtrl with lastOutput := some 21 } : Ctrl).mode = "cool" ∧
      0 < resolvedError { tunedCtrl with lastOutput := some 21 } 0 someTime 18) := by
    simp [tunedCtrl, ctorDefaults]
  exact ⟨rfl, by norm_num [tunedCtrl, ctorDefaults], by norm_num [tunedCtrl, ctorDefaults],
    by norm_num [tunedCtrl, ctorDefaults], by norm_num [tunedCtrl, ctorDefaults],
    by decide, hheat, hcool,
    c3_rate_limit_pid_path { tunedCtrl with lastOutput := some 21 } 0 someTime 18 21 rfl
      (by norm_num [tunedCtrl, ctorDefaults]) (by norm_num [tunedCtrl, ctorDefaults])
      (by norm_num [tunedCtrl, ctorDefaults]) (by norm_num [tunedCtrl, ctorDefaults])
      (by decide) hheat hcool⟩

/-- C2: on every controller satisfying the accumulator invariant
(ordered bounds, Ki inside its clamp range, accumulator within
`[0, (maxTemp - minTemp) / (2 Ki)]`), a single `update` preserves the
invariant — so the accumulator never goes negative and never exceeds the
anti-windup limit — and along any run of updates in heat mode whose
measured temperature exceeds the resolved target on every cycle, the
accumulator is monotonically non-increasing. -/
theorem c2_integral_invariant (s : Ctrl) (now : ℤ) (t : TimeInfo) (temp : ℚ)
    (steps : List (ℤ × TimeInfo × ℚ)) (hinv : CtrlInv s) :
    CtrlInv (update s now t temp).1 ∧
    (s.mode = "heat" → overshootRun s steps → (updateRun s steps).integral ≤ s.integral) :=
  ⟨update_preserves_inv s now t temp hinv,
    fun hmode hover => overshoot_mono s steps hmode hover hinv.2.2.2.1⟩

/-- Witness for C2 on a fresh default controller with one overshooting
cycle. -/
theorem c2_integral_invariant_witness :
    CtrlInv ctorDefaults ∧
    (CtrlInv (update ctorDefaults 5 someTime 22).1 ∧
      (ctorDefaults.mode = "heat" → overshootRun ctorDefaults [(0, someTime, 22)] →
        (updateRun ctorDefaults [(0, someTime, 22)]).integral ≤ ctorDefaults.integral)) :=
  ⟨by norm_num [CtrlInv, ctorDefaults],
    c2_integral_invariant ctorDefaults 5 someTime 22 [(0, someTime, 22)]
      (by norm_num [CtrlInv, ctorDefaults])⟩

end Thermostat
